import Mathlib

/-!
Verification of the Optimistic Store of the Solar Oasis Project Tracker.

The embedding follows `src/src/types.ts`: the entity interfaces at the top of
the file, the `DEFAULT_*` constants, and the state-management closures of the
`AppProvider` component (`saveProject`, `deleteProject`, `saveTransaction`,
`deleteTransaction`, `saveTodo`, `deleteTodo`, `saveFollowUp`,
`deleteFollowUp`, `saveCategory`, `deleteCategory`, `batchUpdate`,
`updateProjectMilestones`, `updatePaymentMilestones`).

Each async operation of the source is split at its only suspension point (the
remote call): a `...Start` function performs the synchronous part up to and
including issuing the remote request, and `...Success` / `...Failure`
functions perform the synchronous continuation that runs when the remote call
resolves.  Nondeterministic effects of the source (`uuidv4()`,
`new Date().toISOString()`) are passed as explicit string parameters.
TypeScript `number` fields are carried as `Int`; no claim computes with them.
A TypeScript `Partial<T>` is modelled as a record with every field wrapped in
`Option` (an absent key is `none`).
-/

/-! ## Data model (`src/src/types.ts`, interfaces) -/

/-- Status union of `Project.status`. -/
inductive ProjectStatus where
  | Draft | Active | Closed | Proposal | Ongoing
deriving DecidableEq, Repr

/-- Status union of `PaymentMilestone.status`. -/
inductive PaymentStatus where
  | Pending | Received
deriving DecidableEq, Repr

/-- Type union of `Transaction.type`. -/
inductive TransactionType where
  | Income | Expense
deriving DecidableEq, Repr

/-- Priority union of `Todo.priority`. -/
inductive TodoPriority where
  | Low | Medium | High
deriving DecidableEq, Repr

/-- Status union of `Todo.status`. -/
inductive TodoStatus where
  | Open | Done
deriving DecidableEq, Repr

/-- Status union of `FollowUp.status`. -/
inductive FollowUpStatus where
  | Pending | Completed
deriving DecidableEq, Repr

/-- Kind union of the `showToast` second argument. -/
inductive ToastKind where
  | success | error
deriving DecidableEq, Repr

structure Milestone where
  name : String
  completed : Bool
  completedDate : Option String
deriving DecidableEq, Repr

structure PaymentMilestone where
  label : String
  amount : Int
  status : PaymentStatus
  receivedDate : Option String
deriving DecidableEq, Repr

structure Estimation where
  systemSizeKwp : Option Int
  totalCapexBudget : Option Int
  contingencyPercent : Option Int
  vatPercent : Option Int
  capexIncludesVat : Option Bool
deriving DecidableEq, Repr

structure Project where
  id : String
  uid : String
  name : String
  clientName : String
  clientPhone : String
  clientEmail : String
  clientCompany : Option String
  siteAddress : String
  googleMapsLink : Option String
  authority : String
  contractValue : Int
  expectedStartDate : Option String
  expectedEndDate : Option String
  status : ProjectStatus
  notes : Option String
  estimation : Estimation
  milestones : List Milestone
  paymentMilestones : List PaymentMilestone
  tags : Option (List String)
  created_at : String
  updated_at : String
deriving DecidableEq, Repr

structure Transaction where
  id : String
  project_id : String
  uid : String
  type : TransactionType
  amount : Int
  date : String
  description : String
  category : String
  paymentMode : String
  vendor : Option String
  invoiceNo : Option String
  created_at : String
  updated_at : String
deriving DecidableEq, Repr

structure Todo where
  id : String
  project_id : String
  uid : String
  task : String
  assignee : Option String
  priority : TodoPriority
  dueDate : Option String
  status : TodoStatus
  repeatIntervalDays : Option Int
  created_at : String
  updated_at : String
deriving DecidableEq, Repr

structure FollowUp where
  id : String
  project_id : String
  uid : String
  title : String
  details : String
  date : String
  owner : String
  status : FollowUpStatus
  nextFollowUpDate : Option String
  repeatIntervalDays : Option Int
  created_at : String
  updated_at : String
deriving DecidableEq, Repr

structure Category where
  id : String
  uid : String
  name : String
  created_at : String
  updated_at : String
deriving DecidableEq, Repr

/-! ## Defaults (`src/src/types.ts`, `DEFAULT_*` constants)

Each `DefaultK` structure mirrors the TypeScript type
`Omit<K, 'id' | 'uid' | 'created_at' | 'updated_at'>` (for `Transaction`,
`Todo` and `FollowUp` the omission also covers `project_id`). -/

structure DefaultProject where
  name : String
  clientName : String
  clientPhone : String
  clientEmail : String
  clientCompany : Option String
  siteAddress : String
  googleMapsLink : Option String
  authority : String
  contractValue : Int
  expectedStartDate : Option String
  expectedEndDate : Option String
  status : ProjectStatus
  notes : Option String
  estimation : Estimation
  milestones : List Milestone
  paymentMilestones : List PaymentMilestone
  tags : Option (List String)
deriving DecidableEq, Repr

structure DefaultTransaction where
  type : TransactionType
  amount : Int
  date : String
  description : String
  category : String
  paymentMode : String
  vendor : Option String
  invoiceNo : Option String
deriving DecidableEq, Repr

structure DefaultTodo where
  task : String
  assignee : Option String
  priority : TodoPriority
  dueDate : Option String
  status : TodoStatus
  repeatIntervalDays : Option Int
deriving DecidableEq, Repr

structure DefaultFollowUp where
  title : String
  details : String
  date : String
  owner : String
  status : FollowUpStatus
  nextFollowUpDate : Option String
  repeatIntervalDays : Option Int
deriving DecidableEq, Repr

structure DefaultCategory where
  name : String
deriving DecidableEq, Repr

def DEFAULT_ESTIMATION : Estimation :=
  { systemSizeKwp := some 0
    totalCapexBudget := some 0
    contingencyPercent := some 0
    vatPercent := some 5
    capexIncludesVat := some false }

def DEFAULT_MILESTONES : List Milestone :=
  [ { name := "Proposal", completed := false, completedDate := none }
  , { name := "Authority Approval", completed := false, completedDate := none }
  , { name := "Material Procurement", completed := false, completedDate := none }
  , { name := "Installation", completed := false, completedDate := none }
  , { name := "Inspection", completed := false, completedDate := none }
  , { name := "Commissioning", completed := false, completedDate := none }
  , { name := "Final Handover", completed := false, completedDate := none } ]

def DEFAULT_PAYMENT_MILESTONES : List PaymentMilestone :=
  [ { label := "Booking Payment", amount := 0, status := .Pending, receivedDate := none }
  , { label := "Installation Payment", amount := 0, status := .Pending, receivedDate := none }
  , { label := "Final Payment", amount := 0, status := .Pending, receivedDate := none } ]

/-- The source value is `UAE_AUTHORITIES[0]`. -/
def DEFAULT_PROJECT : DefaultProject :=
  { name := ""
    clientName := ""
    clientPhone := ""
    clientEmail := ""
    clientCompany := some ""
    siteAddress := ""
    googleMapsLink := some ""
    authority := "Abu Dhabi"
    contractValue := 0
    expectedStartDate := none
    expectedEndDate := none
    status := .Draft
    notes := some ""
    estimation := DEFAULT_ESTIMATION
    milestones := DEFAULT_MILESTONES
    paymentMilestones := DEFAULT_PAYMENT_MILESTONES
    tags := some [] }

/-- The source sets `date: new Date().toISOString()` once, when the module is
initialized; that timestamp is the `loadTime` parameter. `paymentMode` is
`DEFAULT_PAYMENT_MODES[0]`. -/
def DEFAULT_TRANSACTION (loadTime : String) : DefaultTransaction :=
  { type := .Expense
    amount := 0
    date := loadTime
    description := ""
    category := ""
    paymentMode := "Cash"
    vendor := none
    invoiceNo := none }

def DEFAULT_TODO : DefaultTodo :=
  { task := ""
    assignee := none
    priority := .Medium
    dueDate := none
    status := .Open
    repeatIntervalDays := none }

/-- The source sets `date: new Date().toISOString()` once, when the module is
initialized; that timestamp is the `loadTime` parameter. -/
def DEFAULT_FOLLOWUP (loadTime : String) : DefaultFollowUp :=
  { title := ""
    details := ""
    date := loadTime
    owner := ""
    status := .Pending
    nextFollowUpDate := none
    repeatIntervalDays := none }

def DEFAULT_CATEGORY : DefaultCategory :=
  { name := "" }

/-! ## Partial entity data (`Partial<K>` arguments of the save closures)

Every field is wrapped in `Option`: `none` models an absent key, `some v`
models a key present with value `v` (for a field that is itself optional in
the entity interface, `v` is again an `Option`). -/

structure PartialProject where
  id : Option String := none
  uid : Option String := none
  name : Option String := none
  clientName : Option String := none
  clientPhone : Option String := none
  clientEmail : Option String := none
  clientCompany : Option (Option String) := none
  siteAddress : Option String := none
  googleMapsLink : Option (Option String) := none
  authority : Option String := none
  contractValue : Option Int := none
  expectedStartDate : Option (Option String) := none
  expectedEndDate : Option (Option String) := none
  status : Option ProjectStatus := none
  notes : Option (Option String) := none
  estimation : Option Estimation := none
  milestones : Option (List Milestone) := none
  paymentMilestones : Option (List PaymentMilestone) := none
  tags : Option (Option (List String)) := none
  created_at : Option String := none
  updated_at : Option String := none
deriving DecidableEq, Repr

structure PartialTransaction where
  id : Option String := none
  project_id : Option String := none
  uid : Option String := none
  type : Option TransactionType := none
  amount : Option Int := none
  date : Option String := none
  description : Option String := none
  category : Option String := none
  paymentMode : Option String := none
  vendor : Option (Option String) := none
  invoiceNo : Option (Option String) := none
  created_at : Option String := none
  updated_at : Option String := none
deriving DecidableEq, Repr

structure PartialTodo where
  id : Option String := none
  project_id : Option String := none
  uid : Option String := none
  task : Option String := none
  assignee : Option (Option String) := none
  priority : Option TodoPriority := none
  dueDate : Option (Option String) := none
  status : Option TodoStatus := none
  repeatIntervalDays : Option (Option Int) := none
  created_at : Option String := none
  updated_at : Option String := none
deriving DecidableEq, Repr

structure PartialFollowUp where
  id : Option String := none
  project_id : Option String := none
  uid : Option String := none
  title : Option String := none
  details : Option String := none
  date : Option String := none
  owner : Option String := none
  status : Option FollowUpStatus := none
  nextFollowUpDate : Option (Option String) := none
  repeatIntervalDays : Option (Option Int) := none
  created_at : Option String := none
  updated_at : Option String := none
deriving DecidableEq, Repr

structure PartialCategory where
  id : Option String := none
  uid : Option String := none
  name : Option String := none
  created_at : Option String := none
  updated_at : Option String := none
deriving DecidableEq, Repr

/-! ## Store state and observable effects -/

/-- The state owned by `AppProvider` that the store operations touch
(`useState` hooks of `src/src/types.ts`). -/
structure AppState where
  userId : Option String
  projects : List Project
  transactions : List Transaction
  todos : List Todo
  followUps : List FollowUp
  categories : List Category
  selectedProjectId : Option String
deriving DecidableEq, Repr

/-- Remote requests of `src/src/api.ts` as issued by the store operations. -/
inductive RemoteCall where
  | saveProject (item : Project) (isNew : Bool)
  | saveTransaction (item : Transaction) (isNew : Bool)
  | saveTodo (item : Todo) (isNew : Bool)
  | saveFollowUp (item : FollowUp) (isNew : Bool)
  | saveCategory (item : Category) (isNew : Bool)
  | deleteProject (id : String)
  | deleteTransaction (id : String)
  | deleteTodo (id : String)
  | deleteFollowUp (id : String)
  | deleteCategory (id : String)
  | batchUpdateMilestones (projectId : String) (milestones : List Milestone)
      (paymentMilestones : List PaymentMilestone)
deriving DecidableEq, Repr

/-- Observable side effects of one synchronous phase: `showToast` calls and
remote requests, in program order. -/
inductive Out where
  | toast (message : String) (kind : ToastKind)
  | remote (call : RemoteCall)
deriving DecidableEq, Repr

/-- JavaScript falsiness of a `string | null | undefined` value, as tested by
`if (!userId)` and `if (isNew && !data.project_id)`. -/
def strFalsy : Option String → Bool
  | none => true
  | some s => s == ""

/-- The data a pending save keeps across its suspension point: the
synthesized optimistic entity, the `originalState` snapshot captured at
invocation, and the `isNew` flag. -/
structure SaveCtx (α : Type) where
  optimisticItem : α
  originalState : List α
  isNew : Bool
deriving DecidableEq, Repr

/-- The id-keyed slot replacement `prev.map(i => i.id === targetId ? newItem : i)`
used by every optimistic update and every server reconciliation. -/
def replaceById {α : Type} (getId : α → String) (xs : List α) (targetId : String)
    (newItem : α) : List α :=
  xs.map fun x => if getId x == targetId then newItem else x

/-! ## Entity synthesis (the spread expressions inside the save closures)

Creation is `{ ...DEFAULT_K, ...data, id: uuidv4(), uid: userId,
created_at: now, updated_at: now }` (with `project_id: data.project_id!`
added for `Transaction`/`Todo`/`FollowUp`); update is
`{ ...existing, ...data, updated_at: now }`.  A field of the JavaScript
spread result is the partial's value when its key is present, the underlying
record's value otherwise; the trailing explicit fields always win. -/

def mkNewProject (data : PartialProject) (uuid userId now : String) : Project :=
  { id := uuid
    uid := userId
    name := data.name.getD DEFAULT_PROJECT.name
    clientName := data.clientName.getD DEFAULT_PROJECT.clientName
    clientPhone := data.clientPhone.getD DEFAULT_PROJECT.clientPhone
    clientEmail := data.clientEmail.getD DEFAULT_PROJECT.clientEmail
    clientCompany := data.clientCompany.getD DEFAULT_PROJECT.clientCompany
    siteAddress := data.siteAddress.getD DEFAULT_PROJECT.siteAddress
    googleMapsLink := data.googleMapsLink.getD DEFAULT_PROJECT.googleMapsLink
    authority := data.authority.getD DEFAULT_PROJECT.authority
    contractValue := data.contractValue.getD DEFAULT_PROJECT.contractValue
    expectedStartDate := data.expectedStartDate.getD DEFAULT_PROJECT.expectedStartDate
    expectedEndDate := data.expectedEndDate.getD DEFAULT_PROJECT.expectedEndDate
    status := data.status.getD DEFAULT_PROJECT.status
    notes := data.notes.getD DEFAULT_PROJECT.notes
    estimation := data.estimation.getD DEFAULT_PROJECT.estimation
    milestones := data.milestones.getD DEFAULT_PROJECT.milestones
    paymentMilestones := data.paymentMilestones.getD DEFAULT_PROJECT.paymentMilestones
    tags := data.tags.getD DEFAULT_PROJECT.tags
    created_at := now
    updated_at := now }

def mergeProject (existing : Project) (data : PartialProject) (now : String) : Project :=
  { id := data.id.getD existing.id
    uid := data.uid.getD existing.uid
    name := data.name.getD existing.name
    clientName := data.clientName.getD existing.clientName
    clientPhone := data.clientPhone.getD existing.clientPhone
    clientEmail := data.clientEmail.getD existing.clientEmail
    clientCompany := data.clientCompany.getD existing.clientCompany
    siteAddress := data.siteAddress.getD existing.siteAddress
    googleMapsLink := data.googleMapsLink.getD existing.googleMapsLink
    authority := data.authority.getD existing.authority
    contractValue := data.contractValue.getD existing.contractValue
    expectedStartDate := data.expectedStartDate.getD existing.expectedStartDate
    expectedEndDate := data.expectedEndDate.getD existing.expectedEndDate
    status := data.status.getD existing.status
    notes := data.notes.getD existing.notes
    estimation := data.estimation.getD existing.estimation
    milestones := data.milestones.getD existing.milestones
    paymentMilestones := data.paymentMilestones.getD existing.paymentMilestones
    tags := data.tags.getD existing.tags
    created_at := data.created_at.getD existing.created_at
    updated_at := now }

def mkNewTransaction (data : PartialTransaction) (uuid userId now loadTime : String) :
    Transaction :=
  { id := uuid
    project_id := data.project_id.getD ""
    uid := userId
    type := data.type.getD (DEFAULT_TRANSACTION loadTime).type
    amount := data.amount.getD (DEFAULT_TRANSACTION loadTime).amount
    date := data.date.getD (DEFAULT_TRANSACTION loadTime).date
    description := data.description.getD (DEFAULT_TRANSACTION loadTime).description
    category := data.category.getD (DEFAULT_TRANSACTION loadTime).category
    paymentMode := data.paymentMode.getD (DEFAULT_TRANSACTION loadTime).paymentMode
    vendor := data.vendor.getD (DEFAULT_TRANSACTION loadTime).vendor
    invoiceNo := data.invoiceNo.getD (DEFAULT_TRANSACTION loadTime).invoiceNo
    created_at := now
    updated_at := now }

def mergeTransaction (existing : Transaction) (data : PartialTransaction) (now : String) :
    Transaction :=
  { id := data.id.getD existing.id
    project_id := data.project_id.getD existing.project_id
    uid := data.uid.getD existing.uid
    type := data.type.getD existing.type
    amount := data.amount.getD existing.amount
    date := data.date.getD existing.date
    description := data.description.getD existing.description
    category := data.category.getD existing.category
    paymentMode := data.paymentMode.getD existing.paymentMode
    vendor := data.vendor.getD existing.vendor
    invoiceNo := data.invoiceNo.getD existing.invoiceNo
    created_at := data.created_at.getD existing.created_at
    updated_at := now }

def mkNewTodo (data : PartialTodo) (uuid userId now : String) : Todo :=
  { id := uuid
    project_id := data.project_id.getD ""
    uid := userId
    task := data.task.getD DEFAULT_TODO.task
    assignee := data.assignee.getD DEFAULT_TODO.assignee
    priority := data.priority.getD DEFAULT_TODO.priority
    dueDate := data.dueDate.getD DEFAULT_TODO.dueDate
    status := data.status.getD DEFAULT_TODO.status
    repeatIntervalDays := data.repeatIntervalDays.getD DEFAULT_TODO.repeatIntervalDays
    created_at := now
    updated_at := now }

def mergeTodo (existing : Todo) (data : PartialTodo) (now : String) : Todo :=
  { id := data.id.getD existing.id
    project_id := data.project_id.getD existing.project_id
    uid := data.uid.getD existing.uid
    task := data.task.getD existing.task
    assignee := data.assignee.getD existing.assignee
    priority := data.priority.getD existing.priority
    dueDate := data.dueDate.getD existing.dueDate
    status := data.status.getD existing.status
    repeatIntervalDays := data.repeatIntervalDays.getD existing.repeatIntervalDays
    created_at := data.created_at.getD existing.created_at
    updated_at := now }

def mkNewFollowUp (data : PartialFollowUp) (uuid userId now loadTime : String) :
    FollowUp :=
  { id := uuid
    project_id := data.project_id.getD ""
    uid := userId
    title := data.title.getD (DEFAULT_FOLLOWUP loadTime).title
    details := data.details.getD (DEFAULT_FOLLOWUP loadTime).details
    date := data.date.getD (DEFAULT_FOLLOWUP loadTime).date
    owner := data.owner.getD (DEFAULT_FOLLOWUP loadTime).owner
    status := data.status.getD (DEFAULT_FOLLOWUP loadTime).status
    nextFollowUpDate := data.nextFollowUpDate.getD (DEFAULT_FOLLOWUP loadTime).nextFollowUpDate
    repeatIntervalDays := data.repeatIntervalDays.getD (DEFAULT_FOLLOWUP loadTime).repeatIntervalDays
    created_at := now
    updated_at := now }

def mergeFollowUp (existing : FollowUp) (data : PartialFollowUp) (now : String) :
    FollowUp :=
  { id := data.id.getD existing.id
    project_id := data.project_id.getD existing.project_id
    uid := data.uid.getD existing.uid
    title := data.title.getD existing.title
    details := data.details.getD existing.details
    date := data.date.getD existing.date
    owner := data.owner.getD existing.owner
    status := data.status.getD existing.status
    nextFollowUpDate := data.nextFollowUpDate.getD existing.nextFollowUpDate
    repeatIntervalDays := data.repeatIntervalDays.getD existing.repeatIntervalDays
    created_at := data.created_at.getD existing.created_at
    updated_at := now }

def mkNewCategory (data : PartialCategory) (uuid userId now : String) : Category :=
  { id := uuid
    uid := userId
    name := data.name.getD DEFAULT_CATEGORY.name
    created_at := now
    updated_at := now }

def mergeCategory (existing : Category) (data : PartialCategory) (now : String) :
    Category :=
  { id := data.id.getD existing.id
    uid := data.uid.getD existing.uid
    name := data.name.getD existing.name
    created_at := data.created_at.getD existing.created_at
    updated_at := now }

/-! ## Save operations (`src/src/types.ts`, `AppProvider` closures)

`saveKStart` is the synchronous prefix of the `async` closure `saveK`:
the `userId` guard, the create-path validation guard (for `Transaction`,
`Todo`, `FollowUp`), the synthesis of `optimisticItem`, the capture of
`originalState`, the optimistic `setK`, and the remote request.  The third
component is `none` exactly when the closure returned before reaching the
remote call.  `saveKSuccess` is the `setK` of the `try` continuation;
`saveKFailure` is the `catch` handler. -/

def saveProjectStart (st : AppState) (data : PartialProject) (existing : Option Project)
    (uuid now : String) : AppState × List Out × Option (SaveCtx Project) :=
  if strFalsy st.userId then
    (st, [.toast "User ID not found. Cannot save." .error], none)
  else
    let isNew := existing.isNone
    let optimisticItem : Project :=
      match existing with
      | none => mkNewProject data uuid (st.userId.getD "") now
      | some ex => mergeProject ex data now
    let originalState := st.projects
    let newProjects :=
      if isNew then st.projects ++ [optimisticItem]
      else replaceById Project.id st.projects optimisticItem.id optimisticItem
    ({ st with projects := newProjects },
     [.remote (.saveProject optimisticItem isNew)],
     some ⟨optimisticItem, originalState, isNew⟩)

def saveProjectSuccess (st : AppState) (ctx : SaveCtx Project) (savedItem : Project) :
    AppState :=
  { st with projects := replaceById Project.id st.projects ctx.optimisticItem.id savedItem }

def saveProjectFailure (st : AppState) (ctx : SaveCtx Project) : AppState × List Out :=
  ({ st with projects := ctx.originalState },
   [.toast (if ctx.isNew then "Error creating project. Reverting."
            else "Error updating project. Reverting.") .error])

def saveTransactionStart (st : AppState) (data : PartialTransaction)
    (existing : Option Transaction) (uuid now loadTime : String) :
    AppState × List Out × Option (SaveCtx Transaction) :=
  if strFalsy st.userId then
    (st, [.toast "User ID not found." .error], none)
  else
    let isNew := existing.isNone
    if isNew && strFalsy data.project_id then
      (st, [.toast "Cannot create transaction without a project." .error], none)
    else
      let optimisticItem : Transaction :=
        match existing with
        | none => mkNewTransaction data uuid (st.userId.getD "") now loadTime
        | some ex => mergeTransaction ex data now
      let originalState := st.transactions
      let newTransactions :=
        if isNew then st.transactions ++ [optimisticItem]
        else replaceById Transaction.id st.transactions optimisticItem.id optimisticItem
      ({ st with transactions := newTransactions },
       [.remote (.saveTransaction optimisticItem isNew)],
       some ⟨optimisticItem, originalState, isNew⟩)

def saveTransactionSuccess (st : AppState) (ctx : SaveCtx Transaction)
    (savedItem : Transaction) : AppState :=
  { st with transactions :=
      replaceById Transaction.id st.transactions ctx.optimisticItem.id savedItem }

def saveTransactionFailure (st : AppState) (ctx : SaveCtx Transaction) :
    AppState × List Out :=
  ({ st with transactions := ctx.originalState },
   [.toast "Error saving transaction. Reverting." .error])

def saveTodoStart (st : AppState) (data : PartialTodo) (existing : Option Todo)
    (uuid now : String) : AppState × List Out × Option (SaveCtx Todo) :=
  if strFalsy st.userId then
    (st, [.toast "User ID not found." .error], none)
  else
    let isNew := existing.isNone
    if isNew && strFalsy data.project_id then
      (st, [.toast "Cannot create to-do without a project." .error], none)
    else
      let optimisticItem : Todo :=
        match existing with
        | none => mkNewTodo data uuid (st.userId.getD "") now
        | some ex => mergeTodo ex data now
      let originalState := st.todos
      let newTodos :=
        if isNew then st.todos ++ [optimisticItem]
        else replaceById Todo.id st.todos optimisticItem.id optimisticItem
      ({ st with todos := newTodos },
       [.remote (.saveTodo optimisticItem isNew)],
       some ⟨optimisticItem, originalState, isNew⟩)

def saveTodoSuccess (st : AppState) (ctx : SaveCtx Todo) (savedItem : Todo) : AppState :=
  { st with todos := replaceById Todo.id st.todos ctx.optimisticItem.id savedItem }

def saveTodoFailure (st : AppState) (ctx : SaveCtx Todo) : AppState × List Out :=
  ({ st with todos := ctx.originalState },
   [.toast "Error saving to-do. Reverting." .error])

def saveFollowUpStart (st : AppState) (data : PartialFollowUp)
    (existing : Option FollowUp) (uuid now loadTime : String) :
    AppState × List Out × Option (SaveCtx FollowUp) :=
  if strFalsy st.userId then
    (st, [.toast "User ID not found." .error], none)
  else
    let isNew := existing.isNone
    if isNew && strFalsy data.project_id then
      (st, [.toast "Cannot create follow-up without a project." .error], none)
    else
      let optimisticItem : FollowUp :=
        match existing with
        | none => mkNewFollowUp data uuid (st.userId.getD "") now loadTime
        | some ex => mergeFollowUp ex data now
      let originalState := st.followUps
      let newFollowUps :=
        if isNew then st.followUps ++ [optimisticItem]
        else replaceById FollowUp.id st.followUps optimisticItem.id optimisticItem
      ({ st with followUps := newFollowUps },
       [.remote (.saveFollowUp optimisticItem isNew)],
       some ⟨optimisticItem, originalState, isNew⟩)

def saveFollowUpSuccess (st : AppState) (ctx : SaveCtx FollowUp) (savedItem : FollowUp) :
    AppState :=
  { st with followUps :=
      replaceById FollowUp.id st.followUps ctx.optimisticItem.id savedItem }

def saveFollowUpFailure (st : AppState) (ctx : SaveCtx FollowUp) : AppState × List Out :=
  ({ st with followUps := ctx.originalState },
   [.toast "Error saving follow-up. Reverting." .error])

def saveCategoryStart (st : AppState) (data : PartialCategory)
    (existing : Option Category) (uuid now : String) :
    AppState × List Out × Option (SaveCtx Category) :=
  if strFalsy st.userId then
    (st, [.toast "User ID not found." .error], none)
  else
    let isNew := existing.isNone
    let optimisticItem : Category :=
      match existing with
      | none => mkNewCategory data uuid (st.userId.getD "") now
      | some ex => mergeCategory ex data now
    let originalState := st.categories
    let newCategories :=
      if isNew then st.categories ++ [optimisticItem]
      else replaceById Category.id st.categories optimisticItem.id optimisticItem
    ({ st with categories := newCategories },
     [.remote (.saveCategory optimisticItem isNew)],
     some ⟨optimisticItem, originalState, isNew⟩)

def saveCategorySuccess (st : AppState) (ctx : SaveCtx Category) (savedItem : Category) :
    AppState :=
  { st with categories :=
      replaceById Category.id st.categories ctx.optimisticItem.id savedItem }

def saveCategoryFailure (st : AppState) (ctx : SaveCtx Category) : AppState × List Out :=
  ({ st with categories := ctx.originalState },
   [.toast "Error saving category. Reverting." .error])

/-! ## Delete operations

None of the delete closures reads `userId`; each captures its snapshot,
filters its collection and issues the remote delete unconditionally.
`deleteProject` additionally filters the three dependent collections and
adjusts the selection. On success a delete makes no further state change. -/

/-- Snapshots captured by `deleteProject` before its optimistic removal. -/
structure ProjectDeleteCtx where
  originalProjects : List Project
  originalTransactions : List Transaction
  originalTodos : List Todo
  originalFollowUps : List FollowUp
deriving DecidableEq, Repr

def deleteProjectStart (st : AppState) (id : String) :
    AppState × List Out × ProjectDeleteCtx :=
  let originalProjects := st.projects
  let originalTransactions := st.transactions
  let originalTodos := st.todos
  let originalFollowUps := st.followUps
  let newProjects := st.projects.filter fun p => p.id != id
  let newTransactions := st.transactions.filter fun t => t.project_id != id
  let newTodos := st.todos.filter fun t => t.project_id != id
  let newFollowUps := st.followUps.filter fun f => f.project_id != id
  let newSelected :=
    if st.selectedProjectId == some id then
      let remaining := originalProjects.filter fun p => p.id != id
      match remaining with
      | [] => none
      | p :: _ => some p.id
    else st.selectedProjectId
  ({ st with projects := newProjects, transactions := newTransactions,
             todos := newTodos, followUps := newFollowUps,
             selectedProjectId := newSelected },
   [.remote (.deleteProject id)],
   ⟨originalProjects, originalTransactions, originalTodos, originalFollowUps⟩)

def deleteProjectFailure (st : AppState) (ctx : ProjectDeleteCtx) :
    AppState × List Out :=
  ({ st with projects := ctx.originalProjects,
             transactions := ctx.originalTransactions,
             todos := ctx.originalTodos,
             followUps := ctx.originalFollowUps },
   [.toast "Error deleting project. Reverting." .error])

def deleteTransactionStart (st : AppState) (id : String) :
    AppState × List Out × List Transaction :=
  let originalState := st.transactions
  ({ st with transactions := st.transactions.filter fun i => i.id != id },
   [.remote (.deleteTransaction id)], originalState)

def deleteTransactionFailure (st : AppState) (originalState : List Transaction) :
    AppState × List Out :=
  ({ st with transactions := originalState },
   [.toast "Error deleting transaction. Reverting." .error])

def deleteTodoStart (st : AppState) (id : String) : AppState × List Out × List Todo :=
  let originalState := st.todos
  ({ st with todos := st.todos.filter fun i => i.id != id },
   [.remote (.deleteTodo id)], originalState)

def deleteTodoFailure (st : AppState) (originalState : List Todo) : AppState × List Out :=
  ({ st with todos := originalState },
   [.toast "Error deleting to-do. Reverting." .error])

def deleteFollowUpStart (st : AppState) (id : String) :
    AppState × List Out × List FollowUp :=
  let originalState := st.followUps
  ({ st with followUps := st.followUps.filter fun i => i.id != id },
   [.remote (.deleteFollowUp id)], originalState)

def deleteFollowUpFailure (st : AppState) (originalState : List FollowUp) :
    AppState × List Out :=
  ({ st with followUps := originalState },
   [.toast "Error deleting follow-up. Reverting." .error])

def deleteCategoryStart (st : AppState) (id : String) :
    AppState × List Out × List Category :=
  let originalState := st.categories
  ({ st with categories := st.categories.filter fun i => i.id != id },
   [.remote (.deleteCategory id)], originalState)

def deleteCategoryFailure (st : AppState) (originalState : List Category) :
    AppState × List Out :=
  ({ st with categories := originalState },
   [.toast "Error deleting category. Reverting." .error])

/-! ## Milestone batch update and its wrappers -/

/-- Synchronous prefix of `batchUpdate`: looks the project up, and on a hit
applies the optimistic replacement of both milestone arrays plus the
`updated_at` refresh and issues the remote call.  The third component is the
`originalProject` snapshot, `none` when the lookup missed (early return:
no state change, no toast, no remote call). -/
def batchUpdate (st : AppState) (projectId : String) (milestones : List Milestone)
    (paymentMilestones : List PaymentMilestone) (now : String) :
    AppState × List Out × Option Project :=
  match st.projects.find? fun p => p.id == projectId with
  | none => (st, [], none)
  | some originalProject =>
    let updatedProject :=
      { originalProject with milestones := milestones,
                             paymentMilestones := paymentMilestones,
                             updated_at := now }
    ({ st with projects := replaceById Project.id st.projects projectId updatedProject },
     [.remote (.batchUpdateMilestones projectId milestones paymentMilestones)],
     some originalProject)

def batchUpdateSuccess (st : AppState) (projectId : String)
    (serverUpdatedProject : Project) : AppState :=
  { st with projects := replaceById Project.id st.projects projectId serverUpdatedProject }

def batchUpdateFailure (st : AppState) (projectId : String) (originalProject : Project) :
    AppState × List Out :=
  ({ st with projects := replaceById Project.id st.projects projectId originalProject },
   [.toast "Failed to update milestones. Reverting." .error])

def updateProjectMilestones (st : AppState) (projectId : String)
    (milestones : List Milestone) (now : String) :
    AppState × List Out × Option Project :=
  match st.projects.find? fun p => p.id == projectId with
  | none => (st, [], none)
  | some project => batchUpdate st projectId milestones project.paymentMilestones now

def updatePaymentMilestones (st : AppState) (projectId : String)
    (paymentMilestones : List PaymentMilestone) (now : String) :
    AppState × List Out × Option Project :=
  match st.projects.find? fun p => p.id == projectId with
  | none => (st, [], none)
  | some project => batchUpdate st projectId project.milestones paymentMilestones now

/-! ## Helper lemmas about `replaceById` and `find?` -/

theorem replaceById_append_fresh {α : Type} (getId : α → String) (xs : List α) (x v : α)
    (h : ∀ y ∈ xs, getId y ≠ getId x) :
    replaceById getId (xs ++ [x]) (getId x) v = xs ++ [v] := by
  unfold replaceById
  rw [List.map_append]
  congr 1
  · induction xs with
    | nil => rfl
    | cons a as ih =>
      simp only [List.map_cons]
      rw [if_neg, ih]
      · intro y hy
        exact h y (List.mem_cons_of_mem a hy)
      · simp only [beq_iff_eq]
        exact h a (List.mem_cons_self a as)
  · simp

theorem replaceById_idem {α : Type} (getId : α → String) (xs : List α) (t : String)
    (v w : α) (hv : getId v = t) :
    replaceById getId (replaceById getId xs t v) t w = replaceById getId xs t w := by
  unfold replaceById
  rw [List.map_map]
  apply List.map_congr_left
  intro x _
  by_cases h : getId x = t
  · simp [h, hv]
  · simp [h]

theorem replaceById_restore {α : Type} (getId : α → String) (xs : List α) (t : String)
    (v o : α) (hv : getId v = t) (h : ∀ x ∈ xs, getId x = t → x = o) :
    replaceById getId (replaceById getId xs t v) t o = xs := by
  unfold replaceById
  rw [List.map_map]
  have : ∀ x ∈ xs, ((fun y => if getId y == t then o else y) ∘
      fun y => if getId y == t then v else y) x = id x := by
    intro x hx
    by_cases hgx : getId x = t
    · have hxo := h x hx hgx
      simp [Function.comp, hgx, hv]
      exact hxo.symm
    · simp [hgx]
  rw [List.map_congr_left this, List.map_id]

theorem replaceById_find? {α : Type} (getId : α → String) (xs : List α) (t : String)
    (v o : α) (hv : getId v = t)
    (hfind : xs.find? (fun x => getId x == t) = some o) :
    (replaceById getId xs t v).find? (fun x => getId x == t) = some v := by
  induction xs with
  | nil => simp at hfind
  | cons a as ih =>
    by_cases ha : getId a = t
    · simp [replaceById, List.find?_cons, ha, hv]
    · rw [List.find?_cons_of_neg _ (by simp [ha])] at hfind
      simpa [replaceById, List.find?_cons, ha] using ih hfind

theorem eq_of_find?_nodup {α : Type} (getId : α → String) (xs : List α) (t : String)
    (o : α) (hfind : xs.find? (fun x => getId x == t) = some o)
    (hnodup : (xs.map getId).Nodup) :
    ∀ x ∈ xs, getId x = t → x = o := by
  induction xs with
  | nil => simp at hfind
  | cons a as ih =>
    intro x hx hgx
    simp only [List.map_cons, List.nodup_cons] at hnodup
    by_cases ha : getId a = t
    · rw [List.find?_cons_of_pos _ (by simp [ha])] at hfind
      cases hfind
      rcases List.mem_cons.mp hx with rfl | hxs
      · rfl
      · exact absurd (by rw [ha, ← hgx]; exact List.mem_map_of_mem getId hxs) hnodup.1
    · rw [List.find?_cons_of_neg _ (by simp [ha])] at hfind
      rcases List.mem_cons.mp hx with rfl | hxs
      · exact absurd hgx ha
      · exact ih hfind hnodup.2 x hxs hgx

/-! ## All-remote-calls-succeed operation sequences (spec §8, first property)

For each entity kind, an `Op` is a save (carrying the effect parameters and
the entity the server returns) or a delete.  `runKOpOk` executes the
operation through the store functions with the remote call succeeding;
`confirmedKStep` is the specification-side sequential application of the
server-confirmed entities.  `kOpsOk` checks, along the run, that each
create-path save uses a fresh identifier (the contract of `uuidv4()`) and —
for the kinds with a foreign-key guard — a truthy `project_id`, so that the
remote call is actually issued. -/

inductive ProjectOp where
  | save (data : PartialProject) (existing : Option Project) (uuid now : String)
      (serverItem : Project)
  | delete (id : String)

def runProjectOpOk (st : AppState) : ProjectOp → AppState
  | .save data existing uuid now serverItem =>
    match saveProjectStart st data existing uuid now with
    | (st1, _, some ctx) => saveProjectSuccess st1 ctx serverItem
    | (st1, _, none) => st1
  | .delete id => (deleteProjectStart st id).1

def runProjectOpsOk (st : AppState) : List ProjectOp → AppState
  | [] => st
  | op :: rest => runProjectOpsOk (runProjectOpOk st op) rest

def confirmedProjectStep (ps : List Project) : ProjectOp → List Project
  | .save data existing _uuid _now serverItem =>
    match existing with
    | none => ps ++ [serverItem]
    | some ex => replaceById Project.id ps (data.id.getD ex.id) serverItem
  | .delete id => ps.filter fun p => p.id != id

def confirmedProjectRun (ps : List Project) : List ProjectOp → List Project
  | [] => ps
  | op :: rest => confirmedProjectRun (confirmedProjectStep ps op) rest

def projectOpOkHead (ps : List Project) : ProjectOp → Bool
  | .save _ none uuid _ _ => ps.all fun p => p.id != uuid
  | .save _ (some _) _ _ _ => true
  | .delete _ => true

def projectOpsOk (ps : List Project) : List ProjectOp → Bool
  | [] => true
  | op :: rest => projectOpOkHead ps op && projectOpsOk (confirmedProjectStep ps op) rest

theorem runProjectOpOk_userId (st : AppState) (op : ProjectOp) :
    (runProjectOpOk st op).userId = st.userId := by
  cases op with
  | save data existing uuid now serverItem =>
    simp only [runProjectOpOk, saveProjectStart]
    by_cases hu : strFalsy st.userId
    · simp [hu]
    · cases existing <;> simp [hu, saveProjectSuccess]
  | delete id => simp [runProjectOpOk, deleteProjectStart]

theorem runProjectOpOk_projects (st : AppState) (op : ProjectOp)
    (hu : strFalsy st.userId = false)
    (hok : projectOpOkHead st.projects op = true) :
    (runProjectOpOk st op).projects = confirmedProjectStep st.projects op := by
  cases op with
  | save data existing uuid now serverItem =>
    cases existing with
    | none =>
      have hfresh : ∀ y ∈ st.projects, y.id ≠ uuid := by
        intro y hy
        simp only [projectOpOkHead, List.all_eq_true] at hok
        simpa using hok y hy
      simp only [runProjectOpOk, saveProjectStart, hu, Bool.false_eq_true, if_false,
        Option.isNone_none, saveProjectSuccess, confirmedProjectStep]
      rw [if_pos trivial]
      have hid : (mkNewProject data uuid (st.userId.getD "") now).id = uuid := rfl
      rw [← hid]
      exact replaceById_append_fresh Project.id st.projects _ serverItem
        (by intro y hy; rw [hid]; exact hfresh y hy)
    | some ex =>
      simp only [runProjectOpOk, saveProjectStart, hu, Bool.false_eq_true, if_false,
        Option.isNone_some, saveProjectSuccess, confirmedProjectStep]
      have hid : (mergeProject ex data now).id = data.id.getD ex.id := rfl
      rw [hid]
      exact replaceById_idem Project.id st.projects (data.id.getD ex.id) _ serverItem hid
  | delete id => rfl

theorem runProjectOpsOk_projects (st : AppState) (ops : List ProjectOp)
    (hu : strFalsy st.userId = false)
    (hok : projectOpsOk st.projects ops = true) :
    (runProjectOpsOk st ops).projects = confirmedProjectRun st.projects ops := by
  induction ops generalizing st with
  | nil => rfl
  | cons op rest ih =>
    simp only [projectOpsOk, Bool.and_eq_true] at hok
    have hstep := runProjectOpOk_projects st op hu hok.1
    have huid := runProjectOpOk_userId st op
    rw [runProjectOpsOk, confirmedProjectRun]
    rw [ih (runProjectOpOk st op) (by rw [huid]; exact hu) (by rw [hstep]; exact hok.2)]
    rw [hstep]

inductive TransactionOp where
  | save (data : PartialTransaction) (existing : Option Transaction)
      (uuid now loadTime : String) (serverItem : Transaction)
  | delete (id : String)

def runTransactionOpOk (st : AppState) : TransactionOp → AppState
  | .save data existing uuid now loadTime serverItem =>
    match saveTransactionStart st data existing uuid now loadTime with
    | (st1, _, some ctx) => saveTransactionSuccess st1 ctx serverItem
    | (st1, _, none) => st1
  | .delete id => (deleteTransactionStart st id).1

def runTransactionOpsOk (st : AppState) : List TransactionOp → AppState
  | [] => st
  | op :: rest => runTransactionOpsOk (runTransactionOpOk st op) rest

def confirmedTransactionStep (ts : List Transaction) : TransactionOp → List Transaction
  | .save data existing _uuid _now _loadTime serverItem =>
    match existing with
    | none => ts ++ [serverItem]
    | some ex => replaceById Transaction.id ts (data.id.getD ex.id) serverItem
  | .delete id => ts.filter fun t => t.id != id

def confirmedTransactionRun (ts : List Transaction) : List TransactionOp → List Transaction
  | [] => ts
  | op :: rest => confirmedTransactionRun (confirmedTransactionStep ts op) rest

def transactionOpOkHead (ts : List Transaction) : TransactionOp → Bool
  | .save data none uuid _ _ _ =>
    !(strFalsy data.project_id) && ts.all fun t => t.id != uuid
  | .save _ (some _) _ _ _ _ => true
  | .delete _ => true

def transactionOpsOk (ts : List Transaction) : List TransactionOp → Bool
  | [] => true
  | op :: rest =>
    transactionOpOkHead ts op && transactionOpsOk (confirmedTransactionStep ts op) rest

theorem runTransactionOpOk_userId (st : AppState) (op : TransactionOp) :
    (runTransactionOpOk st op).userId = st.userId := by
  cases op with
  | save data existing uuid now loadTime serverItem =>
    simp only [runTransactionOpOk, saveTransactionStart]
    by_cases hu : strFalsy st.userId
    · simp [hu]
    · cases existing with
      | none =>
        by_cases hp : strFalsy data.project_id
        · simp [hu, hp]
        · simp [hu, hp, saveTransactionSuccess]
      | some ex => simp [hu, saveTransactionSuccess]
  | delete id => simp [runTransactionOpOk, deleteTransactionStart]

theorem runTransactionOpOk_transactions (st : AppState) (op : TransactionOp)
    (hu : strFalsy st.userId = false)
    (hok : transactionOpOkHead st.transactions op = true) :
    (runTransactionOpOk st op).transactions = confirmedTransactionStep st.transactions op := by
  cases op with
  | save data existing uuid now loadTime serverItem =>
    cases existing with
    | none =>
      simp only [transactionOpOkHead, Bool.and_eq_true, List.all_eq_true,
        Bool.not_eq_true'] at hok
      have hpid : strFalsy data.project_id = false := hok.1
      have hfresh : ∀ y ∈ st.transactions, y.id ≠ uuid := by
        intro y hy
        simpa using hok.2 y hy
      simp only [runTransactionOpOk, saveTransactionStart, hu, hpid, Bool.false_eq_true,
        if_false, Option.isNone_none, Bool.true_and, saveTransactionSuccess,
        confirmedTransactionStep]
      rw [if_pos trivial]
      have hid : (mkNewTransaction data uuid (st.userId.getD "") now loadTime).id = uuid := rfl
      rw [← hid]
      exact replaceById_append_fresh Transaction.id st.transactions _ serverItem
        (by intro y hy; rw [hid]; exact hfresh y hy)
    | some ex =>
      simp only [runTransactionOpOk, saveTransactionStart, hu, Bool.false_eq_true, if_false,
        Option.isNone_some, Bool.false_and, saveTransactionSuccess, confirmedTransactionStep]
      have hid : (mergeTransaction ex data now).id = data.id.getD ex.id := rfl
      rw [hid]
      exact replaceById_idem Transaction.id st.transactions (data.id.getD ex.id) _ serverItem hid
  | delete id => rfl

theorem runTransactionOpsOk_transactions (st : AppState) (ops : List TransactionOp)
    (hu : strFalsy st.userId = false)
    (hok : transactionOpsOk st.transactions ops = true) :
    (runTransactionOpsOk st ops).transactions = confirmedTransactionRun st.transactions ops := by
  induction ops generalizing st with
  | nil => rfl
  | cons op rest ih =>
    simp only [transactionOpsOk, Bool.and_eq_true] at hok
    have hstep := runTransactionOpOk_transactions st op hu hok.1
    have huid := runTransactionOpOk_userId st op
    rw [runTransactionOpsOk, confirmedTransactionRun]
    rw [ih (runTransactionOpOk st op) (by rw [huid]; exact hu) (by rw [hstep]; exact hok.2)]
    rw [hstep]

inductive TodoOp where
  | save (data : PartialTodo) (existing : Option Todo) (uuid now : String)
      (serverItem : Todo)
  | delete (id : String)

def runTodoOpOk (st : AppState) : TodoOp → AppState
  | .save data existing uuid now serverItem =>
    match saveTodoStart st data existing uuid now with
    | (st1, _, some ctx) => saveTodoSuccess st1 ctx serverItem
    | (st1, _, none) => st1
  | .delete id => (deleteTodoStart st id).1

def runTodoOpsOk (st : AppState) : List TodoOp → AppState
  | [] => st
  | op :: rest => runTodoOpsOk (runTodoOpOk st op) rest

def confirmedTodoStep (ts : List Todo) : TodoOp → List Todo
  | .save data existing _uuid _now serverItem =>
    match existing with
    | none => ts ++ [serverItem]
    | some ex => replaceById Todo.id ts (data.id.getD ex.id) serverItem
  | .delete id => ts.filter fun t => t.id != id

def confirmedTodoRun (ts : List Todo) : List TodoOp → List Todo
  | [] => ts
  | op :: rest => confirmedTodoRun (confirmedTodoStep ts op) rest

def todoOpOkHead (ts : List Todo) : TodoOp → Bool
  | .save data none uuid _ _ =>
    !(strFalsy data.project_id) && ts.all fun t => t.id != uuid
  | .save _ (some _) _ _ _ => true
  | .delete _ => true

def todoOpsOk (ts : List Todo) : List TodoOp → Bool
  | [] => true
  | op :: rest => todoOpOkHead ts op && todoOpsOk (confirmedTodoStep ts op) rest

theorem runTodoOpOk_userId (st : AppState) (op : TodoOp) :
    (runTodoOpOk st op).userId = st.userId := by
  cases op with
  | save data existing uuid now serverItem =>
    simp only [runTodoOpOk, saveTodoStart]
    by_cases hu : strFalsy st.userId
    · simp [hu]
    · cases existing with
      | none =>
        by_cases hp : strFalsy data.project_id
        · simp [hu, hp]
        · simp [hu, hp, saveTodoSuccess]
      | some ex => simp [hu, saveTodoSuccess]
  | delete id => simp [runTodoOpOk, deleteTodoStart]

theorem runTodoOpOk_todos (st : AppState) (op : TodoOp)
    (hu : strFalsy st.userId = false)
    (hok : todoOpOkHead st.todos op = true) :
    (runTodoOpOk st op).todos = confirmedTodoStep st.todos op := by
  cases op with
  | save data existing uuid now serverItem =>
    cases existing with
    | none =>
      simp only [todoOpOkHead, Bool.and_eq_true, List.all_eq_true,
        Bool.not_eq_true'] at hok
      have hpid : strFalsy data.project_id = false := hok.1
      have hfresh : ∀ y ∈ st.todos, y.id ≠ uuid := by
        intro y hy
        simpa using hok.2 y hy
      simp only [runTodoOpOk, saveTodoStart, hu, hpid, Bool.false_eq_true,
        if_false, Option.isNone_none, Bool.true_and, saveTodoSuccess, confirmedTodoStep]
      rw [if_pos trivial]
      have hid : (mkNewTodo data uuid (st.userId.getD "") now).id = uuid := rfl
      rw [← hid]
      exact replaceById_append_fresh Todo.id st.todos _ serverItem
        (by intro y hy; rw [hid]; exact hfresh y hy)
    | some ex =>
      simp only [runTodoOpOk, saveTodoStart, hu, Bool.false_eq_true, if_false,
        Option.isNone_some, Bool.false_and, saveTodoSuccess, confirmedTodoStep]
      have hid : (mergeTodo ex data now).id = data.id.getD ex.id := rfl
      rw [hid]
      exact replaceById_idem Todo.id st.todos (data.id.getD ex.id) _ serverItem hid
  | delete id => rfl

theorem runTodoOpsOk_todos (st : AppState) (ops : List TodoOp)
    (hu : strFalsy st.userId = false)
    (hok : todoOpsOk st.todos ops = true) :
    (runTodoOpsOk st ops).todos = confirmedTodoRun st.todos ops := by
  induction ops generalizing st with
  | nil => rfl
  | cons op rest ih =>
    simp only [todoOpsOk, Bool.and_eq_true] at hok
    have hstep := runTodoOpOk_todos st op hu hok.1
    have huid := runTodoOpOk_userId st op
    rw [runTodoOpsOk, confirmedTodoRun]
    rw [ih (runTodoOpOk st op) (by rw [huid]; exact hu) (by rw [hstep]; exact hok.2)]
    rw [hstep]

inductive FollowUpOp where
  | save (data : PartialFollowUp) (existing : Option FollowUp)
      (uuid now loadTime : String) (serverItem : FollowUp)
  | delete (id : String)

def runFollowUpOpOk (st : AppState) : FollowUpOp → AppState
  | .save data existing uuid now loadTime serverItem =>
    match saveFollowUpStart st data existing uuid now loadTime with
    | (st1, _, some ctx) => saveFollowUpSuccess st1 ctx serverItem
    | (st1, _, none) => st1
  | .delete id => (deleteFollowUpStart st id).1

def runFollowUpOpsOk (st : AppState) : List FollowUpOp → AppState
  | [] => st
  | op :: rest => runFollowUpOpsOk (runFollowUpOpOk st op) rest

def confirmedFollowUpStep (fs : List FollowUp) : FollowUpOp → List FollowUp
  | .save data existing _uuid _now _loadTime serverItem =>
    match existing with
    | none => fs ++ [serverItem]
    | some ex => replaceById FollowUp.id fs (data.id.getD ex.id) serverItem
  | .delete id => fs.filter fun f => f.id != id

def confirmedFollowUpRun (fs : List FollowUp) : List FollowUpOp → List FollowUp
  | [] => fs
  | op :: rest => confirmedFollowUpRun (confirmedFollowUpStep fs op) rest

def followUpOpOkHead (fs : List FollowUp) : FollowUpOp → Bool
  | .save data none uuid _ _ _ =>
    !(strFalsy data.project_id) && fs.all fun f => f.id != uuid
  | .save _ (some _) _ _ _ _ => true
  | .delete _ => true

def followUpOpsOk (fs : List FollowUp) : List FollowUpOp → Bool
  | [] => true
  | op :: rest => followUpOpOkHead fs op && followUpOpsOk (confirmedFollowUpStep fs op) rest

theorem runFollowUpOpOk_userId (st : AppState) (op : FollowUpOp) :
    (runFollowUpOpOk st op).userId = st.userId := by
  cases op with
  | save data existing uuid now loadTime serverItem =>
    simp only [runFollowUpOpOk, saveFollowUpStart]
    by_cases hu : strFalsy st.userId
    · simp [hu]
    · cases existing with
      | none =>
        by_cases hp : strFalsy data.project_id
        · simp [hu, hp]
        · simp [hu, hp, saveFollowUpSuccess]
      | some ex => simp [hu, saveFollowUpSuccess]
  | delete id => simp [runFollowUpOpOk, deleteFollowUpStart]

theorem runFollowUpOpOk_followUps (st : AppState) (op : FollowUpOp)
    (hu : strFalsy st.userId = false)
    (hok : followUpOpOkHead st.followUps op = true) :
    (runFollowUpOpOk st op).followUps = confirmedFollowUpStep st.followUps op := by
  cases op with
  | save data existing uuid now loadTime serverItem =>
    cases existing with
    | none =>
      simp only [followUpOpOkHead, Bool.and_eq_true, List.all_eq_true,
        Bool.not_eq_true'] at hok
      have hpid : strFalsy data.project_id = false := hok.1
      have hfresh : ∀ y ∈ st.followUps, y.id ≠ uuid := by
        intro y hy
        simpa using hok.2 y hy
      simp only [runFollowUpOpOk, saveFollowUpStart, hu, hpid, Bool.false_eq_true,
        if_false, Option.isNone_none, Bool.true_and, saveFollowUpSuccess,
        confirmedFollowUpStep]
      rw [if_pos trivial]
      have hid : (mkNewFollowUp data uuid (st.userId.getD "") now loadTime).id = uuid := rfl
      rw [← hid]
      exact replaceById_append_fresh FollowUp.id st.followUps _ serverItem
        (by intro y hy; rw [hid]; exact hfresh y hy)
    | some ex =>
      simp only [runFollowUpOpOk, saveFollowUpStart, hu, Bool.false_eq_true, if_false,
        Option.isNone_some, Bool.false_and, saveFollowUpSuccess, confirmedFollowUpStep]
      have hid : (mergeFollowUp ex data now).id = data.id.getD ex.id := rfl
      rw [hid]
      exact replaceById_idem FollowUp.id st.followUps (data.id.getD ex.id) _ serverItem hid
  | delete id => rfl

theorem runFollowUpOpsOk_followUps (st : AppState) (ops : List FollowUpOp)
    (hu : strFalsy st.userId = false)
    (hok : followUpOpsOk st.followUps ops = true) :
    (runFollowUpOpsOk st ops).followUps = confirmedFollowUpRun st.followUps ops := by
  induction ops generalizing st with
  | nil => rfl
  | cons op rest ih =>
    simp only [followUpOpsOk, Bool.and_eq_true] at hok
    have hstep := runFollowUpOpOk_followUps st op hu hok.1
    have huid := runFollowUpOpOk_userId st op
    rw [runFollowUpOpsOk, confirmedFollowUpRun]
    rw [ih (runFollowUpOpOk st op) (by rw [huid]; exact hu) (by rw [hstep]; exact hok.2)]
    rw [hstep]

inductive CategoryOp where
  | save (data : PartialCategory) (existing : Option Category) (uuid now : String)
      (serverItem : Category)
  | delete (id : String)

def runCategoryOpOk (st : AppState) : CategoryOp → AppState
  | .save data existing uuid now serverItem =>
    match saveCategoryStart st data existing uuid now with
    | (st1, _, some ctx) => saveCategorySuccess st1 ctx serverItem
    | (st1, _, none) => st1
  | .delete id => (deleteCategoryStart st id).1

def runCategoryOpsOk (st : AppState) : List CategoryOp → AppState
  | [] => st
  | op :: rest => runCategoryOpsOk (runCategoryOpOk st op) rest

def confirmedCategoryStep (cs : List Category) : CategoryOp → List Category
  | .save data existing _uuid _now serverItem =>
    match existing with
    | none => cs ++ [serverItem]
    | some ex => replaceById Category.id cs (data.id.getD ex.id) serverItem
  | .delete id => cs.filter fun c => c.id != id

def confirmedCategoryRun (cs : List Category) : List CategoryOp → List Category
  | [] => cs
  | op :: rest => confirmedCategoryRun (confirmedCategoryStep cs op) rest

def categoryOpOkHead (cs : List Category) : CategoryOp → Bool
  | .save _ none uuid _ _ => cs.all fun c => c.id != uuid
  | .save _ (some _) _ _ _ => true
  | .delete _ => true

def categoryOpsOk (cs : List Category) : List CategoryOp → Bool
  | [] => true
  | op :: rest => categoryOpOkHead cs op && categoryOpsOk (confirmedCategoryStep cs op) rest

theorem runCategoryOpOk_userId (st : AppState) (op : CategoryOp) :
    (runCategoryOpOk st op).userId = st.userId := by
  cases op with
  | save data existing uuid now serverItem =>
    simp only [runCategoryOpOk, saveCategoryStart]
    by_cases hu : strFalsy st.userId
    · simp [hu]
    · cases existing <;> simp [hu, saveCategorySuccess]
  | delete id => simp [runCategoryOpOk, deleteCategoryStart]

theorem runCategoryOpOk_categories (st : AppState) (op : CategoryOp)
    (hu : strFalsy st.userId = false)
    (hok : categoryOpOkHead st.categories op = true) :
    (runCategoryOpOk st op).categories = confirmedCategoryStep st.categories op := by
  cases op with
  | save data existing uuid now serverItem =>
    cases existing with
    | none =>
      have hfresh : ∀ y ∈ st.categories, y.id ≠ uuid := by
        intro y hy
        simp only [categoryOpOkHead, List.all_eq_true] at hok
        simpa using hok y hy
      simp only [runCategoryOpOk, saveCategoryStart, hu, Bool.false_eq_true, if_false,
        Option.isNone_none, saveCategorySuccess, confirmedCategoryStep]
      rw [if_pos trivial]
      have hid : (mkNewCategory data uuid (st.userId.getD "") now).id = uuid := rfl
      rw [← hid]
      exact replaceById_append_fresh Category.id st.categories _ serverItem
        (by intro y hy; rw [hid]; exact hfresh y hy)
    | some ex =>
      simp only [runCategoryOpOk, saveCategoryStart, hu, Bool.false_eq_true, if_false,
        Option.isNone_some, saveCategorySuccess, confirmedCategoryStep]
      have hid : (mergeCategory ex data now).id = data.id.getD ex.id := rfl
      rw [hid]
      exact replaceById_idem Category.id st.categories (data.id.getD ex.id) _ serverItem hid
  | delete id => rfl

theorem runCategoryOpsOk_categories (st : AppState) (ops : List CategoryOp)
    (hu : strFalsy st.userId = false)
    (hok : categoryOpsOk st.categories ops = true) :
    (runCategoryOpsOk st ops).categories = confirmedCategoryRun st.categories ops := by
  induction ops generalizing st with
  | nil => rfl
  | cons op rest ih =>
    simp only [categoryOpsOk, Bool.and_eq_true] at hok
    have hstep := runCategoryOpOk_categories st op hu hok.1
    have huid := runCategoryOpOk_userId st op
    rw [runCategoryOpsOk, confirmedCategoryRun]
    rw [ih (runCategoryOpOk st op) (by rw [huid]; exact hu) (by rw [hstep]; exact hok.2)]
    rw [hstep]

/-! ## Claim theorems -/

theorem saveProjectStart_ctx_originalState (st : AppState) (data : PartialProject)
    (existing : Option Project) (uuid now : String) (ctx : SaveCtx Project)
    (h : (saveProjectStart st data existing uuid now).2.2 = some ctx) :
    ctx.originalState = st.projects := by
  by_cases hu : strFalsy st.userId
  · simp [saveProjectStart, hu] at h
  · simp only [saveProjectStart, hu, Bool.false_eq_true, if_false,
      Option.some.injEq] at h
    rw [← h]

theorem saveTransactionStart_ctx_originalState (st : AppState) (data : PartialTransaction)
    (existing : Option Transaction) (uuid now loadTime : String) (ctx : SaveCtx Transaction)
    (h : (saveTransactionStart st data existing uuid now loadTime).2.2 = some ctx) :
    ctx.originalState = st.transactions := by
  by_cases hu : strFalsy st.userId
  · simp [saveTransactionStart, hu] at h
  · by_cases hg : existing.isNone && strFalsy data.project_id
    · simp [saveTransactionStart, hu, hg] at h
    · simp only [saveTransactionStart, hu, hg, Bool.false_eq_true, if_false,
        Option.some.injEq] at h
      rw [← h]

theorem saveTodoStart_ctx_originalState (st : AppState) (data : PartialTodo)
    (existing : Option Todo) (uuid now : String) (ctx : SaveCtx Todo)
    (h : (saveTodoStart st data existing uuid now).2.2 = some ctx) :
    ctx.originalState = st.todos := by
  by_cases hu : strFalsy st.userId
  · simp [saveTodoStart, hu] at h
  · by_cases hg : existing.isNone && strFalsy data.project_id
    · simp [saveTodoStart, hu, hg] at h
    · simp only [saveTodoStart, hu, hg, Bool.false_eq_true, if_false,
        Option.some.injEq] at h
      rw [← h]

theorem saveFollowUpStart_ctx_originalState (st : AppState) (data : PartialFollowUp)
    (existing : Option FollowUp) (uuid now loadTime : String) (ctx : SaveCtx FollowUp)
    (h : (saveFollowUpStart st data existing uuid now loadTime).2.2 = some ctx) :
    ctx.originalState = st.followUps := by
  by_cases hu : strFalsy st.userId
  · simp [saveFollowUpStart, hu] at h
  · by_cases hg : existing.isNone && strFalsy data.project_id
    · simp [saveFollowUpStart, hu, hg] at h
    · simp only [saveFollowUpStart, hu, hg, Bool.false_eq_true, if_false,
        Option.some.injEq] at h
      rw [← h]

theorem saveCategoryStart_ctx_originalState (st : AppState) (data : PartialCategory)
    (existing : Option Category) (uuid now : String) (ctx : SaveCtx Category)
    (h : (saveCategoryStart st data existing uuid now).2.2 = some ctx) :
    ctx.originalState = st.categories := by
  by_cases hu : strFalsy st.userId
  · simp [saveCategoryStart, hu] at h
  · simp only [saveCategoryStart, hu, Bool.false_eq_true, if_false,
      Option.some.injEq] at h
    rw [← h]

/-- C1: for every entity kind in Project, Transaction, Todo, FollowUp,
Category, if a `save` call reached its remote request (so a pending context
was captured) and that remote call fails, the catch handler's rollback sets
the kind's collection to exactly the snapshot of that collection taken at
the moment the save was invoked, regardless of the state the failure finds
(no interleaving is assumed: the conclusion equates the rolled-back
collection with the invocation-time collection element for element). -/
theorem c1_save_failure_rollback_restores_snapshot
    (st stP stT stD stF stC : AppState)
    (dp : PartialProject) (ep : Option Project) (up np : String) (ctxP : SaveCtx Project)
    (hp : (saveProjectStart st dp ep up np).2.2 = some ctxP)
    (dt : PartialTransaction) (et : Option Transaction) (ut nt lt : String)
    (ctxT : SaveCtx Transaction)
    (ht : (saveTransactionStart st dt et ut nt lt).2.2 = some ctxT)
    (dd : PartialTodo) (ed : Option Todo) (ud nd : String) (ctxD : SaveCtx Todo)
    (hd : (saveTodoStart st dd ed ud nd).2.2 = some ctxD)
    (df : PartialFollowUp) (ef : Option FollowUp) (uf nf lf : String)
    (ctxF : SaveCtx FollowUp)
    (hf : (saveFollowUpStart st df ef uf nf lf).2.2 = some ctxF)
    (dc : PartialCategory) (ec : Option Category) (uc nc : String) (ctxC : SaveCtx Category)
    (hc : (saveCategoryStart st dc ec uc nc).2.2 = some ctxC) :
    (saveProjectFailure stP ctxP).1.projects = st.projects
    ∧ (saveTransactionFailure stT ctxT).1.transactions = st.transactions
    ∧ (saveTodoFailure stD ctxD).1.todos = st.todos
    ∧ (saveFollowUpFailure stF ctxF).1.followUps = st.followUps
    ∧ (saveCategoryFailure stC ctxC).1.categories = st.categories := by
  refine ⟨?_, ?_, ?_, ?_, ?_⟩
  · exact saveProjectStart_ctx_originalState st dp ep up np ctxP hp
  · exact saveTransactionStart_ctx_originalState st dt et ut nt lt ctxT ht
  · exact saveTodoStart_ctx_originalState st dd ed ud nd ctxD hd
  · exact saveFollowUpStart_ctx_originalState st df ef uf nf lf ctxF hf
  · exact saveCategoryStart_ctx_originalState st dc ec uc nc ctxC hc

/-! ## Concrete sample data used to instantiate the theorems -/

def sampleProject : Project :=
  { id := "p1"
    uid := "u1"
    name := "Villa A"
    clientName := "Ahmed"
    clientPhone := "+971501234567"
    clientEmail := ""
    clientCompany := some ""
    siteAddress := ""
    googleMapsLink := some ""
    authority := "Abu Dhabi"
    contractValue := 100000
    expectedStartDate := none
    expectedEndDate := none
    status := .Active
    notes := some ""
    estimation := DEFAULT_ESTIMATION
    milestones := DEFAULT_MILESTONES
    paymentMilestones := DEFAULT_PAYMENT_MILESTONES
    tags := some []
    created_at := "2024-01-01T00:00:00.000Z"
    updated_at := "2024-01-01T00:00:00.000Z" }

def sampleTransaction : Transaction :=
  { id := "t1"
    project_id := "p1"
    uid := "u1"
    type := .Expense
    amount := 5000
    date := "2024-02-01T00:00:00.000Z"
    description := "Panels order"
    category := "Panels"
    paymentMode := "Cash"
    vendor := none
    invoiceNo := none
    created_at := "2024-02-01T00:00:00.000Z"
    updated_at := "2024-02-01T00:00:00.000Z" }

def sampleTodo : Todo :=
  { id := "d1"
    project_id := "p1"
    uid := "u1"
    task := "Order inverters"
    assignee := none
    priority := .Medium
    dueDate := none
    status := .Open
    repeatIntervalDays := none
    created_at := "2024-02-01T00:00:00.000Z"
    updated_at := "2024-02-01T00:00:00.000Z" }

def sampleFollowUp : FollowUp :=
  { id := "f1"
    project_id := "p1"
    uid := "u1"
    title := "Call client"
    details := ""
    date := "2024-02-01T00:00:00.000Z"
    owner := "Sara"
    status := .Pending
    nextFollowUpDate := none
    repeatIntervalDays := none
    created_at := "2024-02-01T00:00:00.000Z"
    updated_at := "2024-02-01T00:00:00.000Z" }

def sampleCategory : Category :=
  { id := "c1"
    uid := "u1"
    name := "Panels"
    created_at := "2024-01-01T00:00:00.000Z"
    updated_at := "2024-01-01T00:00:00.000Z" }

def sampleState : AppState :=
  { userId := some "u1"
    projects := [sampleProject]
    transactions := [sampleTransaction]
    todos := [sampleTodo]
    followUps := [sampleFollowUp]
    categories := [sampleCategory]
    selectedProjectId := some "p1" }

/-- C1 witness: update-path saves of each kind against `sampleState`; each
captured snapshot rolls the collection back to the invocation-time value. -/
theorem c1_save_failure_rollback_restores_snapshot_witness :
    (saveProjectFailure sampleState
        ⟨mergeProject sampleProject {} "T1", [sampleProject], false⟩).1.projects
      = sampleState.projects
    ∧ (saveTransactionFailure sampleState
        ⟨mergeTransaction sampleTransaction {} "T1", [sampleTransaction], false⟩).1.transactions
      = sampleState.transactions
    ∧ (saveTodoFailure sampleState
        ⟨mergeTodo sampleTodo {} "T1", [sampleTodo], false⟩).1.todos
      = sampleState.todos
    ∧ (saveFollowUpFailure sampleState
        ⟨mergeFollowUp sampleFollowUp {} "T1", [sampleFollowUp], false⟩).1.followUps
      = sampleState.followUps
    ∧ (saveCategoryFailure sampleState
        ⟨mergeCategory sampleCategory {} "T1", [sampleCategory], false⟩).1.categories
      = sampleState.categories :=
  c1_save_failure_rollback_restores_snapshot
    sampleState sampleState sampleState sampleState sampleState sampleState
    {} (some sampleProject) "id9" "T1" _ rfl
    {} (some sampleTransaction) "id9" "T1" "L0" _ rfl
    {} (some sampleTodo) "id9" "T1" _ rfl
    {} (some sampleFollowUp) "id9" "T1" "L0" _ rfl
    {} (some sampleCategory) "id9" "T1" _ rfl

/-- C2: `deleteProject` produces, in one synchronous state transition (one
application of `deleteProjectStart`), a state in which the project with the
given id is removed from `projects` and every `Transaction`, `Todo` and
`FollowUp` whose `project_id` equals that id is removed from its collection;
and the `catch` handler restores all four collections together to their
pre-deletion snapshots, whatever state the failure finds. -/
theorem c2_deleteProject_cascade_and_rollback (st st2 : AppState) (id : String) :
    (deleteProjectStart st id).1.projects = st.projects.filter (fun p => p.id != id)
    ∧ (deleteProjectStart st id).1.transactions
      = st.transactions.filter (fun t => t.project_id != id)
    ∧ (deleteProjectStart st id).1.todos = st.todos.filter (fun t => t.project_id != id)
    ∧ (deleteProjectStart st id).1.followUps
      = st.followUps.filter (fun f => f.project_id != id)
    ∧ (deleteProjectFailure st2 (deleteProjectStart st id).2.2).1.projects = st.projects
    ∧ (deleteProjectFailure st2 (deleteProjectStart st id).2.2).1.transactions
      = st.transactions
    ∧ (deleteProjectFailure st2 (deleteProjectStart st id).2.2).1.todos = st.todos
    ∧ (deleteProjectFailure st2 (deleteProjectStart st id).2.2).1.followUps
      = st.followUps :=
  ⟨rfl, rfl, rfl, rfl, rfl, rfl, rfl, rfl⟩

/-- C3: for every entity kind, along any sequence of save and delete
operations in which every remote call succeeds (and each create uses a fresh
`uuidv4()` value and, for the guarded kinds, a truthy `project_id`, so the
remote call is reached), the final in-memory collection equals the
sequential application of the server-confirmed entities; and after each
successful save every entry occupying the optimistic entity's id slot is the
server-returned entity, so no optimistic entity remains there. -/
theorem c3_all_success_sequences_reconcile_to_confirmed
    (st : AppState) (hu : strFalsy st.userId = false)
    (pops : List ProjectOp) (hpok : projectOpsOk st.projects pops = true)
    (tops : List TransactionOp) (htok : transactionOpsOk st.transactions tops = true)
    (dops : List TodoOp) (hdok : todoOpsOk st.todos dops = true)
    (fops : List FollowUpOp) (hfok : followUpOpsOk st.followUps fops = true)
    (cops : List CategoryOp) (hcok : categoryOpsOk st.categories cops = true)
    (st1 : AppState) (ctx : SaveCtx Project) (server : Project) :
    (runProjectOpsOk st pops).projects = confirmedProjectRun st.projects pops
    ∧ (runTransactionOpsOk st tops).transactions
      = confirmedTransactionRun st.transactions tops
    ∧ (runTodoOpsOk st dops).todos = confirmedTodoRun st.todos dops
    ∧ (runFollowUpOpsOk st fops).followUps = confirmedFollowUpRun st.followUps fops
    ∧ (runCategoryOpsOk st cops).categories = confirmedCategoryRun st.categories cops
    ∧ (∀ x ∈ (saveProjectSuccess st1 ctx server).projects,
        x.id = ctx.optimisticItem.id → x = server) := by
  refine ⟨runProjectOpsOk_projects st pops hu hpok,
    runTransactionOpsOk_transactions st tops hu htok,
    runTodoOpsOk_todos st dops hu hdok,
    runFollowUpOpsOk_followUps st fops hu hfok,
    runCategoryOpsOk_categories st cops hu hcok, ?_⟩
  intro x hx hid
  simp only [saveProjectSuccess, replaceById, List.mem_map] at hx
  obtain ⟨y, hy, hxy⟩ := hx
  by_cases h : y.id = ctx.optimisticItem.id
  · rw [if_pos (by simp [h])] at hxy
    exact hxy.symm
  · rw [if_neg (by simp [h])] at hxy
    rw [← hxy] at hid
    exact absurd hid h

def c3ServerProject : Project :=
  { sampleProject with id := "p2srv", name := "Villa B", created_at := "T2", updated_at := "T2" }

def c3ServerTransaction : Transaction :=
  { sampleTransaction with id := "t2srv", amount := 7000, created_at := "T2", updated_at := "T2" }

def c3ServerFollowUp : FollowUp :=
  { sampleFollowUp with title := "Call client again", updated_at := "T2" }

def c3ServerCategory : Category :=
  { sampleCategory with id := "c2srv", name := "Inverter", created_at := "T2", updated_at := "T2" }

def c3ProjectOps : List ProjectOp :=
  [ .save { name := some "Villa B" } none "p2" "T2" c3ServerProject
  , .delete "p1" ]

def c3TransactionOps : List TransactionOp :=
  [ .save { project_id := some "p1", amount := some 7000 } none "t2" "T2" "L0"
      c3ServerTransaction
  , .delete "t1" ]

def c3TodoOps : List TodoOp := [ .delete "d1" ]

def c3FollowUpOps : List FollowUpOp :=
  [ .save { title := some "Call client again" } (some sampleFollowUp) "x" "T2" "L0"
      c3ServerFollowUp ]

def c3CategoryOps : List CategoryOp :=
  [ .save { name := some "Inverter" } none "c2" "T2" c3ServerCategory ]

/-- C3 witness: concrete all-success operation sequences over `sampleState`,
plus a concrete successful save whose id slot holds the server entity. -/
theorem c3_all_success_sequences_reconcile_to_confirmed_witness :
    (runProjectOpsOk sampleState c3ProjectOps).projects
      = confirmedProjectRun sampleState.projects c3ProjectOps
    ∧ (runTransactionOpsOk sampleState c3TransactionOps).transactions
      = confirmedTransactionRun sampleState.transactions c3TransactionOps
    ∧ (runTodoOpsOk sampleState c3TodoOps).todos
      = confirmedTodoRun sampleState.todos c3TodoOps
    ∧ (runFollowUpOpsOk sampleState c3FollowUpOps).followUps
      = confirmedFollowUpRun sampleState.followUps c3FollowUpOps
    ∧ (runCategoryOpsOk sampleState c3CategoryOps).categories
      = confirmedCategoryRun sampleState.categories c3CategoryOps
    ∧ (∀ x ∈ (saveProjectSuccess sampleState
          ⟨mergeProject sampleProject { name := some "Villa A2" } "T2", [sampleProject], false⟩
          c3ServerProject).projects,
        x.id = (mergeProject sampleProject { name := some "Villa A2" } "T2").id
          → x = c3ServerProject) :=
  c3_all_success_sequences_reconcile_to_confirmed sampleState (by decide)
    c3ProjectOps (by decide) c3TransactionOps (by decide) c3TodoOps (by decide)
    c3FollowUpOps (by decide) c3CategoryOps (by decide)
    sampleState ⟨mergeProject sampleProject { name := some "Villa A2" } "T2",
      [sampleProject], false⟩ c3ServerProject

/-- C4: `batchUpdate` (the implementation of `batchUpdateMilestones`)
replaces both the `milestones` and `paymentMilestones` arrays of the named
project and refreshes its `updated_at` in one optimistic transition (the
project slot holds exactly the record with both new arrays), and on remote
failure the catch handler restores the prior project record whole, so the
collection returns to its pre-operation value and at no observable instant
does the project combine a new value of one array with the old value of the
other. -/
theorem c4_batchUpdate_atomic_pair_and_rollback
    (st : AppState) (projectId : String) (ms : List Milestone)
    (pms : List PaymentMilestone) (now : String) (orig : Project)
    (hfind : st.projects.find? (fun p => p.id == projectId) = some orig)
    (hnodup : (st.projects.map Project.id).Nodup) :
    (batchUpdate st projectId ms pms now).1.projects.find? (fun p => p.id == projectId)
      = some { orig with milestones := ms, paymentMilestones := pms, updated_at := now }
    ∧ (batchUpdate st projectId ms pms now).2.2 = some orig
    ∧ (batchUpdateFailure (batchUpdate st projectId ms pms now).1 projectId orig).1.projects
      = st.projects := by
  have horig : orig.id = projectId := by
    have := List.find?_some hfind
    simpa using this
  have hupd :
      ({ orig with milestones := ms, paymentMilestones := pms, updated_at := now } : Project).id
        = projectId := horig
  refine ⟨?_, ?_, ?_⟩
  · simp only [batchUpdate, hfind]
    exact replaceById_find? Project.id st.projects projectId _ orig hupd hfind
  · simp only [batchUpdate, hfind]
  · simp only [batchUpdate, hfind, batchUpdateFailure]
    exact replaceById_restore Project.id st.projects projectId _ orig hupd
      (eq_of_find?_nodup Project.id st.projects projectId orig hfind hnodup)

/-- C4 witness: a concrete batch update of both milestone arrays on
`sampleState`'s only project, with its rollback. -/
theorem c4_batchUpdate_atomic_pair_and_rollback_witness :
    (batchUpdate sampleState "p1" [] [] "T3").1.projects.find? (fun p => p.id == "p1")
      = some { sampleProject with milestones := [], paymentMilestones := [], updated_at := "T3" }
    ∧ (batchUpdate sampleState "p1" [] [] "T3").2.2 = some sampleProject
    ∧ (batchUpdateFailure (batchUpdate sampleState "p1" [] [] "T3").1 "p1"
        sampleProject).1.projects = sampleState.projects :=
  c4_batchUpdate_atomic_pair_and_rollback sampleState "p1" [] [] "T3" sampleProject
    (by decide) (by decide)

/-- C5: on the create path (existing = null) with a truthy user id (and, for
Transaction/Todo/FollowUp, a truthy `project_id` in the partial data), each
save inserts into its collection an optimistic entity whose id is the freshly
generated `uuidv4()` value, whose `uid` is the active user id, whose
`created_at` and `updated_at` both equal the current time, and whose every
other field is the caller-supplied value when the key is present and the
kind-specific default otherwise; the entity is appended, the snapshot is the
pre-call collection, and the create remote call carries the same entity. -/
theorem c5_create_path_synthesizes_entity
    (st : AppState) (u : String) (hu : st.userId = some u) (hne : ¬ u = "")
    (dp : PartialProject) (up np : String)
    (dt : PartialTransaction) (pt : String) (hpt : dt.project_id = some pt)
    (hptne : ¬ pt = "") (ut nt lt : String)
    (dd : PartialTodo) (pd : String) (hpd : dd.project_id = some pd)
    (hpdne : ¬ pd = "") (ud nd : String)
    (df : PartialFollowUp) (pf : String) (hpf : df.project_id = some pf)
    (hpfne : ¬ pf = "") (uf nf lf : String)
    (dc : PartialCategory) (uc nc : String) :
    (let P : Project :=
      { id := up
        uid := u
        name := dp.name.getD DEFAULT_PROJECT.name
        clientName := dp.clientName.getD DEFAULT_PROJECT.clientName
        clientPhone := dp.clientPhone.getD DEFAULT_PROJECT.clientPhone
        clientEmail := dp.clientEmail.getD DEFAULT_PROJECT.clientEmail
        clientCompany := dp.clientCompany.getD DEFAULT_PROJECT.clientCompany
        siteAddress := dp.siteAddress.getD DEFAULT_PROJECT.siteAddress
        googleMapsLink := dp.googleMapsLink.getD DEFAULT_PROJECT.googleMapsLink
        authority := dp.authority.getD DEFAULT_PROJECT.authority
        contractValue := dp.contractValue.getD DEFAULT_PROJECT.contractValue
        expectedStartDate := dp.expectedStartDate.getD DEFAULT_PROJECT.expectedStartDate
        expectedEndDate := dp.expectedEndDate.getD DEFAULT_PROJECT.expectedEndDate
        status := dp.status.getD DEFAULT_PROJECT.status
        notes := dp.notes.getD DEFAULT_PROJECT.notes
        estimation := dp.estimation.getD DEFAULT_PROJECT.estimation
        milestones := dp.milestones.getD DEFAULT_PROJECT.milestones
        paymentMilestones := dp.paymentMilestones.getD DEFAULT_PROJECT.paymentMilestones
        tags := dp.tags.getD DEFAULT_PROJECT.tags
        created_at := np
        updated_at := np };
     saveProjectStart st dp none up np =
       ({ st with projects := st.projects ++ [P] },
        [.remote (.saveProject P true)], some ⟨P, st.projects, true⟩))
    ∧ (let T : Transaction :=
      { id := ut
        project_id := pt
        uid := u
        type := dt.type.getD (DEFAULT_TRANSACTION lt).type
        amount := dt.amount.getD (DEFAULT_TRANSACTION lt).amount
        date := dt.date.getD (DEFAULT_TRANSACTION lt).date
        description := dt.description.getD (DEFAULT_TRANSACTION lt).description
        category := dt.category.getD (DEFAULT_TRANSACTION lt).category
        paymentMode := dt.paymentMode.getD (DEFAULT_TRANSACTION lt).paymentMode
        vendor := dt.vendor.getD (DEFAULT_TRANSACTION lt).vendor
        invoiceNo := dt.invoiceNo.getD (DEFAULT_TRANSACTION lt).invoiceNo
        created_at := nt
        updated_at := nt };
     saveTransactionStart st dt none ut nt lt =
       ({ st with transactions := st.transactions ++ [T] },
        [.remote (.saveTransaction T true)], some ⟨T, st.transactions, true⟩))
    ∧ (let D : Todo :=
      { id := ud
        project_id := pd
        uid := u
        task := dd.task.getD DEFAULT_TODO.task
        assignee := dd.assignee.getD DEFAULT_TODO.assignee
        priority := dd.priority.getD DEFAULT_TODO.priority
        dueDate := dd.dueDate.getD DEFAULT_TODO.dueDate
        status := dd.status.getD DEFAULT_TODO.status
        repeatIntervalDays := dd.repeatIntervalDays.getD DEFAULT_TODO.repeatIntervalDays
        created_at := nd
        updated_at := nd };
     saveTodoStart st dd none ud nd =
       ({ st with todos := st.todos ++ [D] },
        [.remote (.saveTodo D true)], some ⟨D, st.todos, true⟩))
    ∧ (let F : FollowUp :=
      { id := uf
        project_id := pf
        uid := u
        title := df.title.getD (DEFAULT_FOLLOWUP lf).title
        details := df.details.getD (DEFAULT_FOLLOWUP lf).details
        date := df.date.getD (DEFAULT_FOLLOWUP lf).date
        owner := df.owner.getD (DEFAULT_FOLLOWUP lf).owner
        status := df.status.getD (DEFAULT_FOLLOWUP lf).status
        nextFollowUpDate := df.nextFollowUpDate.getD (DEFAULT_FOLLOWUP lf).nextFollowUpDate
        repeatIntervalDays := df.repeatIntervalDays.getD (DEFAULT_FOLLOWUP lf).repeatIntervalDays
        created_at := nf
        updated_at := nf };
     saveFollowUpStart st df none uf nf lf =
       ({ st with followUps := st.followUps ++ [F] },
        [.remote (.saveFollowUp F true)], some ⟨F, st.followUps, true⟩))
    ∧ (let C : Category :=
      { id := uc
        uid := u
        name := dc.name.getD DEFAULT_CATEGORY.name
        created_at := nc
        updated_at := nc };
     saveCategoryStart st dc none uc nc =
       ({ st with categories := st.categories ++ [C] },
        [.remote (.saveCategory C true)], some ⟨C, st.categories, true⟩)) := by
  refine ⟨?_, ?_, ?_, ?_, ?_⟩
  · simp only [saveProjectStart, hu, strFalsy]
    rw [if_neg (by simpa using hne)]
    rfl
  · simp only [saveTransactionStart, hu, hpt, strFalsy, mkNewTransaction,
      Option.getD_some, Bool.true_and, Option.isNone_none]
    rw [if_neg (by simpa using hne), if_neg (by simpa using hptne)]
    rfl
  · simp only [saveTodoStart, hu, hpd, strFalsy, mkNewTodo,
      Option.getD_some, Bool.true_and, Option.isNone_none]
    rw [if_neg (by simpa using hne), if_neg (by simpa using hpdne)]
    rfl
  · simp only [saveFollowUpStart, hu, hpf, strFalsy, mkNewFollowUp,
      Option.getD_some, Bool.true_and, Option.isNone_none]
    rw [if_neg (by simpa using hne), if_neg (by simpa using hpfne)]
    rfl
  · simp only [saveCategoryStart, hu, strFalsy]
    rw [if_neg (by simpa using hne)]
    rfl

def c5PartialProject : PartialProject := { name := some "Villa C" }

def c5PartialTransaction : PartialTransaction := { project_id := some "p1", amount := some 123 }

def c5PartialTodo : PartialTodo := { project_id := some "p1", task := some "Visit site" }

def c5PartialFollowUp : PartialFollowUp := { project_id := some "p1" }

def c5PartialCategory : PartialCategory := { name := some "Cables" }

/-- C5 witness: concrete create-path saves of every kind against `sampleState`
(user id "u1"), showing the synthesized optimistic entity appended to each
collection and carried by the create remote call. -/
theorem c5_create_path_synthesizes_entity_witness :
    saveProjectStart sampleState c5PartialProject none "pX" "TX" =
      ({ sampleState with
          projects := sampleState.projects ++ [mkNewProject c5PartialProject "pX" "u1" "TX"] },
       [.remote (.saveProject (mkNewProject c5PartialProject "pX" "u1" "TX") true)],
       some ⟨mkNewProject c5PartialProject "pX" "u1" "TX", sampleState.projects, true⟩)
    ∧ saveTransactionStart sampleState c5PartialTransaction none "tX" "TX" "L0" =
      ({ sampleState with
          transactions := sampleState.transactions
            ++ [mkNewTransaction c5PartialTransaction "tX" "u1" "TX" "L0"] },
       [.remote (.saveTransaction (mkNewTransaction c5PartialTransaction "tX" "u1" "TX" "L0") true)],
       some ⟨mkNewTransaction c5PartialTransaction "tX" "u1" "TX" "L0",
         sampleState.transactions, true⟩)
    ∧ saveTodoStart sampleState c5PartialTodo none "dX" "TX" =
      ({ sampleState with
          todos := sampleState.todos ++ [mkNewTodo c5PartialTodo "dX" "u1" "TX"] },
       [.remote (.saveTodo (mkNewTodo c5PartialTodo "dX" "u1" "TX") true)],
       some ⟨mkNewTodo c5PartialTodo "dX" "u1" "TX", sampleState.todos, true⟩)
    ∧ saveFollowUpStart sampleState c5PartialFollowUp none "fX" "TX" "L0" =
      ({ sampleState with
          followUps := sampleState.followUps
            ++ [mkNewFollowUp c5PartialFollowUp "fX" "u1" "TX" "L0"] },
       [.remote (.saveFollowUp (mkNewFollowUp c5PartialFollowUp "fX" "u1" "TX" "L0") true)],
       some ⟨mkNewFollowUp c5PartialFollowUp "fX" "u1" "TX" "L0",
         sampleState.followUps, true⟩)
    ∧ saveCategoryStart sampleState c5PartialCategory none "cX" "TX" =
      ({ sampleState with
          categories := sampleState.categories ++ [mkNewCategory c5PartialCategory "cX" "u1" "TX"] },
       [.remote (.saveCategory (mkNewCategory c5PartialCategory "cX" "u1" "TX") true)],
       some ⟨mkNewCategory c5PartialCategory "cX" "u1" "TX", sampleState.categories, true⟩) :=
  c5_create_path_synthesizes_entity sampleState "u1" rfl (by decide)
    c5PartialProject "pX" "TX"
    c5PartialTransaction "p1" rfl (by decide) "tX" "TX" "L0"
    c5PartialTodo "p1" rfl (by decide) "dX" "TX"
    c5PartialFollowUp "p1" rfl (by decide) "fX" "TX" "L0"
    c5PartialCategory "cX" "TX"

theorem saveProjectStart_update_optimisticItem (st : AppState) (data : PartialProject)
    (ex : Project) (uuid now : String) (ctx : SaveCtx Project)
    (h : (saveProjectStart st data (some ex) uuid now).2.2 = some ctx) :
    ctx.optimisticItem = mergeProject ex data now := by
  by_cases hu : strFalsy st.userId
  · simp [saveProjectStart, hu] at h
  · simp only [saveProjectStart, hu, Bool.false_eq_true, if_false,
      Option.some.injEq] at h
    rw [← h]

theorem saveTransactionStart_update_optimisticItem (st : AppState)
    (data : PartialTransaction) (ex : Transaction) (uuid now loadTime : String)
    (ctx : SaveCtx Transaction)
    (h : (saveTransactionStart st data (some ex) uuid now loadTime).2.2 = some ctx) :
    ctx.optimisticItem = mergeTransaction ex data now := by
  by_cases hu : strFalsy st.userId
  · simp [saveTransactionStart, hu] at h
  · simp only [saveTransactionStart, hu, Bool.false_eq_true, if_false,
      Option.isNone_some, Bool.false_and, Option.some.injEq] at h
    rw [← h]

theorem saveTodoStart_update_optimisticItem (st : AppState) (data : PartialTodo)
    (ex : Todo) (uuid now : String) (ctx : SaveCtx Todo)
    (h : (saveTodoStart st data (some ex) uuid now).2.2 = some ctx) :
    ctx.optimisticItem = mergeTodo ex data now := by
  by_cases hu : strFalsy st.userId
  · simp [saveTodoStart, hu] at h
  · simp only [saveTodoStart, hu, Bool.false_eq_true, if_false,
      Option.isNone_some, Bool.false_and, Option.some.injEq] at h
    rw [← h]

theorem saveFollowUpStart_update_optimisticItem (st : AppState) (data : PartialFollowUp)
    (ex : FollowUp) (uuid now loadTime : String) (ctx : SaveCtx FollowUp)
    (h : (saveFollowUpStart st data (some ex) uuid now loadTime).2.2 = some ctx) :
    ctx.optimisticItem = mergeFollowUp ex data now := by
  by_cases hu : strFalsy st.userId
  · simp [saveFollowUpStart, hu] at h
  · simp only [saveFollowUpStart, hu, Bool.false_eq_true, if_false,
      Option.isNone_some, Bool.false_and, Option.some.injEq] at h
    rw [← h]

theorem saveCategoryStart_update_optimisticItem (st : AppState) (data : PartialCategory)
    (ex : Category) (uuid now : String) (ctx : SaveCtx Category)
    (h : (saveCategoryStart st data (some ex) uuid now).2.2 = some ctx) :
    ctx.optimisticItem = mergeCategory ex data now := by
  by_cases hu : strFalsy st.userId
  · simp [saveCategoryStart, hu] at h
  · simp only [saveCategoryStart, hu, Bool.false_eq_true, if_false,
      Option.some.injEq] at h
    rw [← h]

def c6Data : PartialProject := { created_at := some "1999-01-01T00:00:00.000Z" }

/-- C6 counterexample: the claim says created_at is never changed by an
update-path save for all partialData; but an update-path `saveProject` whose
partial data carries a `created_at` key shallow-merges it over the existing
entity, so the optimistic entity's created_at differs from the existing one. -/
theorem c6_counterexample :
    ((saveProjectStart sampleState c6Data (some sampleProject) "id9" "T9").2.2.map
        fun ctx => ctx.optimisticItem.created_at) = some "1999-01-01T00:00:00.000Z"
    ∧ sampleProject.created_at = "2024-01-01T00:00:00.000Z"
    ∧ ((saveProjectStart sampleState c6Data (some sampleProject) "id9" "T9").2.2.map
        fun ctx => ctx.optimisticItem.created_at) ≠ some sampleProject.created_at :=
  ⟨rfl, rfl, by decide⟩

/-- C6 amended: for every entity kind and every update-path save, the
resulting optimistic entity's `updated_at` is the mutation time for all
partial data, and its `created_at` equals the existing entity's `created_at`
whenever the partial data does not supply a `created_at` key (the shallow
merge otherwise overwrites it, as the counterexample shows);
`batchUpdateMilestones` likewise refreshes `updated_at` and preserves
`created_at` on the project it modifies. -/
theorem c6_amended_created_at_preserved_updated_at_refreshed
    (st : AppState)
    (dp : PartialProject) (exP : Project) (up np : String) (ctxP : SaveCtx Project)
    (hp : (saveProjectStart st dp (some exP) up np).2.2 = some ctxP)
    (dt : PartialTransaction) (exT : Transaction) (ut nt lt : String)
    (ctxT : SaveCtx Transaction)
    (ht : (saveTransactionStart st dt (some exT) ut nt lt).2.2 = some ctxT)
    (dd : PartialTodo) (exD : Todo) (ud nd : String) (ctxD : SaveCtx Todo)
    (hd : (saveTodoStart st dd (some exD) ud nd).2.2 = some ctxD)
    (df : PartialFollowUp) (exF : FollowUp) (uf nf lf : String) (ctxF : SaveCtx FollowUp)
    (hf : (saveFollowUpStart st df (some exF) uf nf lf).2.2 = some ctxF)
    (dc : PartialCategory) (exC : Category) (uc nc : String) (ctxC : SaveCtx Category)
    (hc : (saveCategoryStart st dc (some exC) uc nc).2.2 = some ctxC)
    (stB : AppState) (pidB : String) (msB : List Milestone)
    (pmsB : List PaymentMilestone) (nB : String) (origB : Project)
    (hfindB : stB.projects.find? (fun p => p.id == pidB) = some origB) :
    (dp.created_at = none → ctxP.optimisticItem.created_at = exP.created_at)
    ∧ ctxP.optimisticItem.updated_at = np
    ∧ (dt.created_at = none → ctxT.optimisticItem.created_at = exT.created_at)
    ∧ ctxT.optimisticItem.updated_at = nt
    ∧ (dd.created_at = none → ctxD.optimisticItem.created_at = exD.created_at)
    ∧ ctxD.optimisticItem.updated_at = nd
    ∧ (df.created_at = none → ctxF.optimisticItem.created_at = exF.created_at)
    ∧ ctxF.optimisticItem.updated_at = nf
    ∧ (dc.created_at = none → ctxC.optimisticItem.created_at = exC.created_at)
    ∧ ctxC.optimisticItem.updated_at = nc
    ∧ ((batchUpdate stB pidB msB pmsB nB).1.projects.find? (fun p => p.id == pidB)).map
        Project.created_at = some origB.created_at
    ∧ ((batchUpdate stB pidB msB pmsB nB).1.projects.find? (fun p => p.id == pidB)).map
        Project.updated_at = some nB := by
  have hoptP := saveProjectStart_update_optimisticItem st dp exP up np ctxP hp
  have hoptT := saveTransactionStart_update_optimisticItem st dt exT ut nt lt ctxT ht
  have hoptD := saveTodoStart_update_optimisticItem st dd exD ud nd ctxD hd
  have hoptF := saveFollowUpStart_update_optimisticItem st df exF uf nf lf ctxF hf
  have hoptC := saveCategoryStart_update_optimisticItem st dc exC uc nc ctxC hc
  have hidB :
      ({ origB with milestones := msB, paymentMilestones := pmsB, updated_at := nB } : Project).id
        = pidB := by
    have := List.find?_some hfindB
    simpa using this
  have hB := replaceById_find? Project.id stB.projects pidB
    { origB with milestones := msB, paymentMilestones := pmsB, updated_at := nB }
    origB hidB hfindB
  refine ⟨?_, ?_, ?_, ?_, ?_, ?_, ?_, ?_, ?_, ?_, ?_, ?_⟩
  · intro h0; rw [hoptP]; simp [mergeProject, h0]
  · rw [hoptP]; rfl
  · intro h0; rw [hoptT]; simp [mergeTransaction, h0]
  · rw [hoptT]; rfl
  · intro h0; rw [hoptD]; simp [mergeTodo, h0]
  · rw [hoptD]; rfl
  · intro h0; rw [hoptF]; simp [mergeFollowUp, h0]
  · rw [hoptF]; rfl
  · intro h0; rw [hoptC]; simp [mergeCategory, h0]
  · rw [hoptC]; rfl
  · simp only [batchUpdate, hfindB]
    rw [hB]
    rfl
  · simp only [batchUpdate, hfindB]
    rw [hB]
    rfl

/-- C6 amended witness: update-path saves over `sampleState` — for the
Project kind with the created_at-carrying partial `c6Data` (showing
`updated_at` is refreshed even for such partial data), for the other kinds
with empty partial data (exercising the created_at preservation) — plus a
concrete milestone batch update. -/
theorem c6_amended_created_at_preserved_updated_at_refreshed_witness :
    (c6Data.created_at = none →
      (mergeProject sampleProject c6Data "T1").created_at = sampleProject.created_at)
    ∧ (mergeProject sampleProject c6Data "T1").updated_at = "T1"
    ∧ (({} : PartialTransaction).created_at = none →
      (mergeTransaction sampleTransaction {} "T1").created_at = sampleTransaction.created_at)
    ∧ (mergeTransaction sampleTransaction {} "T1").updated_at = "T1"
    ∧ (({} : PartialTodo).created_at = none →
      (mergeTodo sampleTodo {} "T1").created_at = sampleTodo.created_at)
    ∧ (mergeTodo sampleTodo {} "T1").updated_at = "T1"
    ∧ (({} : PartialFollowUp).created_at = none →
      (mergeFollowUp sampleFollowUp {} "T1").created_at = sampleFollowUp.created_at)
    ∧ (mergeFollowUp sampleFollowUp {} "T1").updated_at = "T1"
    ∧ (({} : PartialCategory).created_at = none →
      (mergeCategory sampleCategory {} "T1").created_at = sampleCategory.created_at)
    ∧ (mergeCategory sampleCategory {} "T1").updated_at = "T1"
    ∧ ((batchUpdate sampleState "p1" [] [] "T3").1.projects.find? (fun p => p.id == "p1")).map
        Project.created_at = some sampleProject.created_at
    ∧ ((batchUpdate sampleState "p1" [] [] "T3").1.projects.find? (fun p => p.id == "p1")).map
        Project.updated_at = some "T3" :=
  c6_amended_created_at_preserved_updated_at_refreshed sampleState
    c6Data sampleProject "id9" "T1" _ rfl
    {} sampleTransaction "id9" "T1" "L0" _ rfl
    {} sampleTodo "id9" "T1" _ rfl
    {} sampleFollowUp "id9" "T1" "L0" _ rfl
    {} sampleCategory "id9" "T1" _ rfl
    sampleState "p1" [] [] "T3" sampleProject (by decide)

/-- C7: for Transaction, Todo and FollowUp, a create-path save (existing =
null, with a session user present) whose partial data lacks the owning
project's identifier returns before any state mutation with only the
validation error toast: the state is unchanged, no remote call is issued
(the pending context is `none`), and the kind's validation message is
reported. -/
theorem c7_create_without_project_id_aborts
    (st : AppState) (u : String) (hu : st.userId = some u) (hne : ¬ u = "")
    (dt : PartialTransaction) (hpt : dt.project_id = none) (ut nt lt : String)
    (dd : PartialTodo) (hpd : dd.project_id = none) (ud nd : String)
    (df : PartialFollowUp) (hpf : df.project_id = none) (uf nf lf : String) :
    saveTransactionStart st dt none ut nt lt
      = (st, [.toast "Cannot create transaction without a project." .error], none)
    ∧ saveTodoStart st dd none ud nd
      = (st, [.toast "Cannot create to-do without a project." .error], none)
    ∧ saveFollowUpStart st df none uf nf lf
      = (st, [.toast "Cannot create follow-up without a project." .error], none) := by
  refine ⟨?_, ?_, ?_⟩
  · simp only [saveTransactionStart, hu, hpt, strFalsy]
    rw [if_neg (by simpa using hne), if_pos (by simp)]
  · simp only [saveTodoStart, hu, hpd, strFalsy]
    rw [if_neg (by simpa using hne), if_pos (by simp)]
  · simp only [saveFollowUpStart, hu, hpf, strFalsy]
    rw [if_neg (by simpa using hne), if_pos (by simp)]

/-- C7 witness: concrete create-path saves with partial data lacking
`project_id` against `sampleState`. -/
theorem c7_create_without_project_id_aborts_witness :
    saveTransactionStart sampleState { amount := some 9 } none "tX" "TX" "L0"
      = (sampleState, [.toast "Cannot create transaction without a project." .error], none)
    ∧ saveTodoStart sampleState { task := some "Visit" } none "dX" "TX"
      = (sampleState, [.toast "Cannot create to-do without a project." .error], none)
    ∧ saveFollowUpStart sampleState { title := some "Call" } none "fX" "TX" "L0"
      = (sampleState, [.toast "Cannot create follow-up without a project." .error], none) :=
  c7_create_without_project_id_aborts sampleState "u1" rfl (by decide)
    { amount := some 9 } rfl "tX" "TX" "L0"
    { task := some "Visit" } rfl "dX" "TX"
    { title := some "Call" } rfl "fX" "TX" "L0"

def c8State : AppState := { sampleState with userId := none }

/-- C8 counterexample: the claim says that with no active user identifier
every mutating operation (including every delete and
`batchUpdateMilestones`) fails immediately with no state change and no
network call; but `deleteTransaction` has no user-id guard: on a state with
`userId = none` it removes the transaction optimistically and issues the
remote delete call.  (`batchUpdate` likewise proceeds guarded only by the
project lookup.) -/
theorem c8_counterexample :
    c8State.userId = none
    ∧ c8State.transactions = [sampleTransaction]
    ∧ (deleteTransactionStart c8State "t1").1.transactions = []
    ∧ (deleteTransactionStart c8State "t1").2.1 = [.remote (.deleteTransaction "t1")]
    ∧ (batchUpdate c8State "p1" [] [] "T3").2.1
      = [.remote (.batchUpdateMilestones "p1" [] [])] :=
  ⟨rfl, rfl, by decide, rfl, by decide⟩

/-- C8 amended: when the active user identifier is absent, every save
operation of the store fails immediately with the guidance toast, makes no
state change and issues no remote call; the delete operations and
`batchUpdateMilestones` are not guarded by the user identifier and proceed
regardless (see the counterexample). -/
theorem c8_amended_missing_user_blocks_saves_only
    (st : AppState) (hu : strFalsy st.userId = true)
    (dp : PartialProject) (ep : Option Project) (up np : String)
    (dt : PartialTransaction) (et : Option Transaction) (ut nt lt : String)
    (dd : PartialTodo) (ed : Option Todo) (ud nd : String)
    (df : PartialFollowUp) (ef : Option FollowUp) (uf nf lf : String)
    (dc : PartialCategory) (ec : Option Category) (uc nc : String) :
    saveProjectStart st dp ep up np
      = (st, [.toast "User ID not found. Cannot save." .error], none)
    ∧ saveTransactionStart st dt et ut nt lt
      = (st, [.toast "User ID not found." .error], none)
    ∧ saveTodoStart st dd ed ud nd
      = (st, [.toast "User ID not found." .error], none)
    ∧ saveFollowUpStart st df ef uf nf lf
      = (st, [.toast "User ID not found." .error], none)
    ∧ saveCategoryStart st dc ec uc nc
      = (st, [.toast "User ID not found." .error], none) := by
  refine ⟨?_, ?_, ?_, ?_, ?_⟩
  · rw [saveProjectStart.eq_def, if_pos hu]
  · rw [saveTransactionStart.eq_def, if_pos hu]
  · rw [saveTodoStart.eq_def, if_pos hu]
  · rw [saveFollowUpStart.eq_def, if_pos hu]
  · rw [saveCategoryStart.eq_def, if_pos hu]

/-- C8 amended witness: every save against the user-less `c8State` aborts
with the guidance toast and no state change. -/
theorem c8_amended_missing_user_blocks_saves_only_witness :
    saveProjectStart c8State {} none "pX" "TX"
      = (c8State, [.toast "User ID not found. Cannot save." .error], none)
    ∧ saveTransactionStart c8State {} none "tX" "TX" "L0"
      = (c8State, [.toast "User ID not found." .error], none)
    ∧ saveTodoStart c8State {} none "dX" "TX"
      = (c8State, [.toast "User ID not found." .error], none)
    ∧ saveFollowUpStart c8State {} none "fX" "TX" "L0"
      = (c8State, [.toast "User ID not found." .error], none)
    ∧ saveCategoryStart c8State {} none "cX" "TX"
      = (c8State, [.toast "User ID not found." .error], none) :=
  c8_amended_missing_user_blocks_saves_only c8State rfl
    {} none "pX" "TX" {} none "tX" "TX" "L0" {} none "dX" "TX"
    {} none "fX" "TX" "L0" {} none "cX" "TX"

/-! ## C9: interleaved saves on the same entity (spec §5 race)

Operation A and operation B both edit the project "p1" of `sampleState`.
The interleaving is: A starts (optimistic apply, snapshot captured), then B
starts (its snapshot is taken from the state that already holds A's
optimistic change), then B's remote call succeeds and reconciles, then A's
remote call fails and rolls back to A's snapshot. -/

def c9DataA : PartialProject := { name := some "A-edit" }

def c9DataB : PartialProject := { name := some "B-edit" }

def c9StartA : AppState × List Out × Option (SaveCtx Project) :=
  saveProjectStart sampleState c9DataA (some sampleProject) "idA" "TA"

def c9st1 : AppState := c9StartA.1

def c9ctxA : SaveCtx Project := c9StartA.2.2.getD ⟨sampleProject, [], false⟩

def c9optA : Project := c9ctxA.optimisticItem

def c9StartB : AppState × List Out × Option (SaveCtx Project) :=
  saveProjectStart c9st1 c9DataB (some c9optA) "idB" "TB"

def c9st2 : AppState := c9StartB.1

def c9ctxB : SaveCtx Project := c9StartB.2.2.getD ⟨sampleProject, [], false⟩

def c9serverB : Project := mergeProject c9optA c9DataB "TBsrv"

def c9st3 : AppState := saveProjectSuccess c9st2 c9ctxB c9serverB

def c9st4 : AppState := (saveProjectFailure c9st3 c9ctxA).1

/-- C9: in the interleaving A-start, B-start, B-success, A-failure on the
same project, B's captured original-state snapshot already contains A's
optimistic change, and A's failure rollback sets the collection to A's
pre-invocation snapshot, which contains neither B's optimistic nor B's
confirmed change: B's change is silently discarded. -/
theorem c9_interleaved_rollback_discards_later_save :
    c9StartA.2.2.isSome = true
    ∧ c9StartB.2.2.isSome = true
    ∧ c9ctxB.originalState.map Project.name = ["A-edit"]
    ∧ c9st3.projects.map Project.name = ["B-edit"]
    ∧ c9st4.projects = sampleState.projects
    ∧ c9st4.projects.map Project.name = ["Villa A"]
    ∧ c9serverB.name = "B-edit" :=
  ⟨rfl, rfl, by decide, by decide, by decide, by decide, rfl⟩

/-- C10: when no project with the given id exists in the projects
collection, `batchUpdate` (the implementation of `batchUpdateMilestones`)
and its wrappers `updateProjectMilestones` and `updatePaymentMilestones`
return early as complete no-ops: the state is unchanged, no effect (neither
toast nor remote call) is emitted, and no pending snapshot is captured. -/
theorem c10_batchUpdate_unknown_project_is_noop
    (st : AppState) (projectId : String) (ms : List Milestone)
    (pms : List PaymentMilestone) (now : String)
    (h : st.projects.find? (fun p => p.id == projectId) = none) :
    batchUpdate st projectId ms pms now = (st, [], none)
    ∧ updateProjectMilestones st projectId ms now = (st, [], none)
    ∧ updatePaymentMilestones st projectId pms now = (st, [], none) := by
  refine ⟨?_, ?_, ?_⟩
  · simp only [batchUpdate, h]
  · simp only [updateProjectMilestones, h]
  · simp only [updatePaymentMilestones, h]

/-- C10 witness: a batch update naming an id absent from `sampleState`. -/
theorem c10_batchUpdate_unknown_project_is_noop_witness :
    batchUpdate sampleState "nope" [] [] "T3" = (sampleState, [], none)
    ∧ updateProjectMilestones sampleState "nope" [] "T3" = (sampleState, [], none)
    ∧ updatePaymentMilestones sampleState "nope" [] "T3" = (sampleState, [], none) :=
  c10_batchUpdate_unknown_project_is_noop sampleState "nope" [] [] "T3" (by decide)
